import Mathlib

/-!
Verification development for the RetroUIMaker browser-extension prototypes.

This file gives a shallow embedding, in Lean, of the JavaScript functions of the
repository that the specification's testable properties talk about:

* the patch applier `applyHtmlPatch` / `applyOperation`
  (initial_chrome_extension/llmPatch/index.js),
* the response cache read path `getCacheResponse` (same file),
* the retrying network wrapper `makeApiRequest` (same file),
* the chunked-selection merge `mergeFilteredElementChunks` /
  `removeDuplicateElements` / `isHighPriorityElement` (same file),
* the selection stage `selectRelevantDomElements` with its local pre-trim
  filter `preTrimDom` (same file),
* the serializer's `computeRobustSelector` (LLMIntegration, popup.js bundle),
* the overlay controllers' `setMode` state machines (content.js and the
  unnamed content-script variant),
* the element copier `createCopy` (create_copy.js).

JavaScript values that can be `undefined`/`null` are modelled with `Option` or
with the small `JsVal` type below; JS truthiness is made explicit.  Browser
platform primitives (the HTML parser, CSS selector matching, `localStorage`,
`fetch`) are modelled by executable Lean functions that are faithful on the
fragment the embedded code exercises; each such model documents its scope.
Strings are manipulated through their character lists so that every definition
evaluates by kernel reduction.
-/

/-- JavaScript truthiness of an optional string: `undefined`, `null` and the
empty string are falsy; every other string is truthy. -/
def truthyS : Option String → Bool
  | none => false
  | some s => s ≠ ""

/-- JavaScript `a || b` on optional strings: returns `a` when truthy, else `b`. -/
def jsOr (a b : Option String) : Option String :=
  if truthyS a then a else b

/-- JavaScript `ToString` as applied when an `undefined` value is used where a
string is expected (for example assigning `undefined` to `innerHTML`). -/
def jsStr : Option String → String
  | none => "undefined"
  | some s => s

/-- A JavaScript value as it appears in the JSON element records exchanged with
the LLM: absent (`undefined`), `null`, a string, or a boolean. -/
inductive JsVal where
  | undef : JsVal
  | null : JsVal
  | str : String → JsVal
  | bool : Bool → JsVal
deriving DecidableEq, Repr

/-- JavaScript truthiness of a `JsVal`. -/
def JsVal.truthy : JsVal → Bool
  | .undef => false
  | .null => false
  | .str s => s ≠ ""
  | .bool b => b

/-- ASCII lower-casing of one character, as `String.prototype.toLowerCase`
acts on the ASCII range (the only range exercised here). -/
def jsLowerChar (c : Char) : Char :=
  if 'A' ≤ c ∧ c ≤ 'Z' then Char.ofNat (c.toNat + 32) else c

/-- ASCII model of `String.prototype.toLowerCase`. -/
def jsToLower (s : String) : String :=
  String.mk (s.data.map jsLowerChar)

/-- Whitespace recognised by `String.prototype.trim` (ASCII subset; the
Unicode whitespace code points do not occur in the embedded data). -/
def jsIsSpace (c : Char) : Bool :=
  c = ' ' ∨ c = '\t' ∨ c = '\n' ∨ c = '\r' ∨ c = '\x0b' ∨ c = '\x0c'

/-- Model of `String.prototype.trim`. -/
def jsTrim (s : String) : String :=
  String.mk (((s.data.dropWhile jsIsSpace).reverse.dropWhile jsIsSpace).reverse)

/-- Model of `String.prototype.includes`: substring containment. -/
def jsIncludes (s pat : String) : Bool :=
  decide (pat.data <:+: s.data)

/-- Model of `String.prototype.startsWith`. -/
def jsStartsWith (s pat : String) : Bool :=
  decide (pat.data <+: s.data)

/-- Model of `Array.prototype.join` / `Array.prototype.map(...).join(sep)`. -/
def joinSep (sep : String) : List String → String
  | [] => ""
  | [s] => s
  | s :: rest => s ++ sep ++ joinSep sep rest

/-!
## The DOM document model

`applyHtmlPatch` parses HTML with the browser's `DOMParser`, mutates the
resulting document through `querySelector`, and re-serialises it with
`documentElement.outerHTML`.  The document is modelled as a tree of element
nodes (tag, attribute list, children) and raw markup nodes; a raw node holds
markup text verbatim and serialises verbatim, which is exactly how a round-trip
through `innerHTML`/`insertAdjacentHTML` followed by `outerHTML` behaves for
markup that the parser does not reorder.  `HForest` is the child list (a
mutual inductive so that every function below is structurally recursive and
evaluates by kernel reduction).
-/

mutual
inductive HNode where
  | elem : String → List (String × String) → HForest → HNode
  | raw : String → HNode
inductive HForest where
  | nil : HForest
  | cons : HNode → HForest → HForest
end

/-- Tag name of an element node (raw markup nodes report the empty tag). -/
def HNode.tag : HNode → String
  | .elem t _ _ => t
  | .raw _ => ""

/-- Attribute list of a node. -/
def HNode.attrs : HNode → List (String × String)
  | .elem _ a _ => a
  | .raw _ => []

/-- Child forest of a node. -/
def HNode.children : HNode → HForest
  | .elem _ _ cs => cs
  | .raw _ => .nil

/-- Value of attribute `name`, or `none` when absent (`getAttribute` → null). -/
def HNode.getAttr (n : HNode) (name : String) : Option String :=
  (n.attrs.find? (fun p => p.1 = name)).map Prod.snd

/-- Serialisation of one attribute as it appears in `outerHTML`. -/
def renderAttr (p : String × String) : String :=
  " " ++ p.1 ++ "=\"" ++ p.2 ++ "\""

mutual
/-- Model of `outerHTML` serialisation of a node (attribute-value escaping is
omitted: no embedded value contains a quote). -/
def serializeNode : HNode → String
  | .elem t a cs => "<" ++ t ++ String.join (a.map renderAttr) ++ ">"
      ++ serializeForest cs ++ "</" ++ t ++ ">"
  | .raw s => s
/-- Serialisation of a child forest. -/
def serializeForest : HForest → String
  | .nil => ""
  | .cons n rest => serializeNode n ++ serializeForest rest
end

/-- Model of `DOMParser.parseFromString(html, "text/html")` followed by taking
the document: per the HTML standard a string of body-level content parses into
a document whose `documentElement` is `<html>` with an empty `<head>` and the
content inside `<body>`.  Document-level markup (an explicit `<html>`/`<head>`
wrapper, doctype, head-only content) is outside the modelled fragment; every
theorem below either quantifies over the parse result symbolically or
evaluates the parser only on body-level content. -/
def parseHtml (s : String) : HNode :=
  .elem "html" [] (.cons (.elem "head" [] .nil)
    (.cons (.elem "body" [] (if s = "" then .nil else .cons (.raw s) .nil)) .nil))

/-- An element of a node's forest, as a Lean list. -/
def HForest.toList : HForest → List HNode
  | .nil => []
  | .cons n rest => n :: HForest.toList rest

/-- Whether a node is an element node. -/
def HNode.isElem : HNode → Bool
  | .elem _ _ _ => true
  | .raw _ => false

/-- Split a character list on runs of whitespace (model of how `classList`
tokenises the `class` attribute). -/
def splitWsList : List Char → List String
  | [] => []
  | c :: rest =>
    if jsIsSpace c then splitWsList rest
    else match splitWsList rest with
      | [] => [String.mk [c]]
      | s :: ss =>
        match rest with
        | [] => [String.mk [c]]
        | d :: _ => if jsIsSpace d then String.mk [c] :: s :: ss
                    else String.mk (c :: s.data) :: ss

/-- Class token list of an element (its `classList`). -/
def classListOf (n : HNode) : List String :=
  match n.getAttr "class" with
  | none => []
  | some s => splitWsList s.data

/-!
## CSS selector model

`computeRobustSelector` emits selectors of the restricted grammar
`#id` or `seg ( " > " seg )*` with
`seg = tag (. class)* ([role="r"])? (:nth-child(n))?`, and the patch
operations address the fixed mount points (`#app-main`, `title`, `body`, …)
of the same grammar.  The model parses exactly this grammar (any other
string is an unsupported selector, for which `querySelectorModel` returns
`none`) and implements standard CSS matching for it: a compound matches an
element by tag/id/class/role and by 1-based position among its parent's
element children for `:nth-child`; `A > B` is the child combinator; the
first match in document (preorder) order is returned, as
`document.querySelector` does. -/
structure Compound where
  tag : Option String
  cid : Option String
  classes : List String
  role : Option String
  nth : Option Nat
deriving DecidableEq, Repr

/-- Split a character list on the literal delimiter `" > "`. -/
def splitArrow : List Char → List (List Char)
  | ' ' :: '>' :: ' ' :: rest => [] :: splitArrow rest
  | c :: rest =>
    match splitArrow rest with
    | [] => [[c]]
    | seg :: segs => (c :: seg) :: segs
  | [] => [[]]

/-- Characters that end a name inside a compound selector. -/
def selDelim (c : Char) : Bool :=
  c = '#' ∨ c = '.' ∨ c = '[' ∨ c = ':'

/-- Decimal digits to a number (for the `:nth-child(n)` argument). -/
def parseNatChars (cs : List Char) : Option Nat :=
  if cs = [] ∨ ¬ cs.all (fun c => c.isDigit) then none
  else some (cs.foldl (fun acc c => acc * 10 + (c.toNat - 48)) 0)

/-- Parse the `#id`/`.class`/`[role="r"]`/`:nth-child(n)` suffix parts of a
compound selector; the fuel argument bounds the loop by the input length. -/
def parseParts : Nat → List Char → Compound → Option Compound
  | _, [], acc => some acc
  | 0, _ :: _, _ => none
  | fuel + 1, '#' :: rest, acc =>
    let name := rest.takeWhile (fun c => ¬ selDelim c)
    let rest' := rest.dropWhile (fun c => ¬ selDelim c)
    if name = [] then none
    else parseParts fuel rest' { acc with cid := some (String.mk name) }
  | fuel + 1, '.' :: rest, acc =>
    let name := rest.takeWhile (fun c => ¬ selDelim c)
    let rest' := rest.dropWhile (fun c => ¬ selDelim c)
    if name = [] then none
    else parseParts fuel rest' { acc with classes := acc.classes ++ [String.mk name] }
  | fuel + 1, '[' :: 'r' :: 'o' :: 'l' :: 'e' :: '=' :: '"' :: rest, acc =>
    let v := rest.takeWhile (fun c => c ≠ '"')
    (match rest.dropWhile (fun c => c ≠ '"') with
     | '"' :: ']' :: rest' => parseParts fuel rest' { acc with role := some (String.mk v) }
     | _ => none)
  | fuel + 1, ':' :: 'n' :: 't' :: 'h' :: '-' :: 'c' :: 'h' :: 'i' :: 'l' :: 'd' :: '(' :: rest, acc =>
    let digits := rest.takeWhile (fun c => c ≠ ')')
    (match rest.dropWhile (fun c => c ≠ ')') with
     | ')' :: rest' =>
       match parseNatChars digits with
       | some k => parseParts fuel rest' { acc with nth := some k }
       | none => none
     | _ => none)
  | _ + 1, _ :: _, _ => none

/-- Parse one compound selector. -/
def parseCompoundChars (cs : List Char) : Option Compound :=
  let tagc := cs.takeWhile (fun c => ¬ selDelim c)
  let rest := cs.dropWhile (fun c => ¬ selDelim c)
  if tagc = [] ∧ rest = [] then none
  else parseParts (rest.length + 1) rest
    ⟨if tagc = [] then none else some (String.mk tagc), none, [], none, none⟩

/-- Parse a full child-combinator selector string. -/
def parseSelectorStr (s : String) : Option (List Compound) :=
  (splitArrow s.data).mapM parseCompoundChars

/-- Node addressed by a path of child indices from the document element. -/
def nodeAt : HNode → List Nat → Option HNode
  | n, [] => some n
  | n, i :: rest =>
    match (HForest.toList n.children).get? i with
    | some c => nodeAt c rest
    | none => none

/-- The 1-based position of the child at forest index `i` among the element
children of its parent (what `:nth-child` counts). -/
def elemPosition (parent : HNode) (i : Nat) : Nat :=
  ((HForest.toList parent.children).take i).countP (fun c => c.isElem) + 1

/-- Standard matching of one compound selector against the element at `path`
(the document element sits at path `[]` and counts as first child). -/
def matchesCompound (root : HNode) (path : List Nat) (c : Compound) : Bool :=
  match nodeAt root path with
  | none => false
  | some n =>
    n.isElem &&
    (match c.tag with | none => true | some t => n.tag == t) &&
    (match c.cid with | none => true | some i => n.getAttr "id" == some i) &&
    c.classes.all (fun cl => (classListOf n).contains cl) &&
    (match c.role with | none => true | some r => n.getAttr "role" == some r) &&
    (match c.nth with
     | none => true
     | some k =>
       match path.getLast? with
       | none => k == 1
       | some i =>
         match nodeAt root path.dropLast with
         | none => false
         | some parent => elemPosition parent i == k)

/-- Matching of a reversed compound chain (`A > B` child combinator): the
head compound must match the element, the rest its ancestor chain. -/
def matchesRev (root : HNode) : List Nat → List Compound → Bool
  | _, [] => true
  | p, [c] => matchesCompound root p c
  | p, c :: c' :: rest =>
    matchesCompound root p c && p ≠ [] && matchesRev root p.dropLast (c' :: rest)

mutual
/-- Preorder (document-order) paths of the element nodes of a subtree. -/
def elemPaths : HNode → List Nat → List (List Nat)
  | .elem _ _ cs, pre => pre :: elemPathsForest cs pre 0
  | .raw _, _ => []
/-- Preorder paths of the element nodes of a forest. -/
def elemPathsForest : HForest → List Nat → Nat → List (List Nat)
  | .nil, _, _ => []
  | .cons c rest, pre, i => elemPaths c (pre ++ [i]) ++ elemPathsForest rest pre (i + 1)
end

/-- Model of `document.querySelector`: the path of the first element in
document order matching the selector, or `none` when nothing matches or the
selector is outside the modelled grammar. -/
def querySelectorModel (root : HNode) (sel : String) : Option (List Nat) :=
  match parseSelectorStr sel with
  | none => none
  | some cs => (elemPaths root []).find? (fun p => matchesRev root p cs.reverse)

/-!
## Patch applier (`applyHtmlPatch` / `applyOperation`, llmPatch/index.js)
-/

/-- Replace the child at index `i` of a forest using `f`. -/
def HForest.modifyIdx (f : HNode → HNode) : HForest → Nat → HForest
  | .nil, _ => .nil
  | .cons c cs, 0 => .cons (f c) cs
  | .cons c cs, i + 1 => .cons c (HForest.modifyIdx f cs i)

/-- Remove the child at index `i` of a forest. -/
def HForest.removeIdx : HForest → Nat → HForest
  | .nil, _ => .nil
  | .cons _ cs, 0 => cs
  | .cons c cs, i + 1 => .cons c (HForest.removeIdx cs i)

/-- Apply `f` to the node addressed by `path`. -/
def modifyAt : HNode → List Nat → (HNode → HNode) → HNode
  | n, [], f => f n
  | .elem t a cs, i :: rest, f => .elem t a (HForest.modifyIdx (fun c => modifyAt c rest f) cs i)
  | .raw s, _ :: _, _ => .raw s

/-- Detach the node addressed by `path` (`Element.remove()`); detaching the
document element itself is outside the modelled fragment and is the identity. -/
def removeAt : HNode → List Nat → HNode
  | n, [] => n
  | .elem t a cs, [i] => .elem t a (HForest.removeIdx cs i)
  | .elem t a cs, i :: rest => .elem t a (HForest.modifyIdx (fun c => removeAt c rest) cs i)
  | .raw s, _ :: _ => .raw s

/-- An HTML string as a child fragment: `innerHTML`/`insertAdjacentHTML`
payloads are kept as raw markup (serialising verbatim, see `HNode.raw`). -/
def rawFragment (h : String) : HForest :=
  if h = "" then .nil else .cons (.raw h) .nil

/-- Concatenation of two forests. -/
def HForest.append : HForest → HForest → HForest
  | .nil, ys => ys
  | .cons x xs, ys => .cons x (HForest.append xs ys)

/-- Model of `setAttribute` on an attribute list. -/
def setAttrList (a : List (String × String)) (k v : String) : List (String × String) :=
  if a.any (fun p => p.1 == k) then a.map (fun p => if p.1 == k then (k, v) else p)
  else a ++ [(k, v)]

/-- Model of `removeAttribute` on an attribute list. -/
def removeAttrList (a : List (String × String)) (k : String) : List (String × String) :=
  a.filter (fun p => p.1 ≠ k)

/-- One DOM edit operation of the patch JSON schema: the `op` tag and the
optional `selector`, `html`, `attribute` and `value` payload fields (the
`attribute` field is named `attrName` here since `attribute` is reserved in
Lean).  Absent-or-null JSON fields are `none`. -/
structure Operation where
  op : String
  selector : Option String
  html : Option String
  attrName : Option String
  value : Option String
deriving DecidableEq, Repr

/-- A patch: `version` tag and ordered operation list. -/
structure Patch where
  version : String
  operations : List Operation
deriving DecidableEq, Repr

/-- Embedding of `applyOperation(doc, operation)`: switch on `operation.op`;
each case looks up `operation.selector` with `querySelector` and skips (with a
console warning) when the target is missing; `replaceFullDocument` is handled
at a higher level and unknown ops warn and skip.  The per-operation
`try`/`catch` is represented by the skip behaviour of the selector model on
unsupported selectors. -/
def applyOperation (doc : HNode) (o : Operation) : HNode :=
  if o.op == "replace" then
    match querySelectorModel doc (jsStr o.selector) with
    | some p => modifyAt doc p (fun n =>
        match n with
        | .elem t a _ => .elem t a (rawFragment (jsStr o.html))
        | .raw s => .raw s)
    | none => doc
  else if o.op == "append" then
    match querySelectorModel doc (jsStr o.selector) with
    | some p => modifyAt doc p (fun n =>
        match n with
        | .elem t a cs => .elem t a (HForest.append cs (rawFragment (jsStr o.html)))
        | .raw s => .raw s)
    | none => doc
  else if o.op == "prepend" then
    match querySelectorModel doc (jsStr o.selector) with
    | some p => modifyAt doc p (fun n =>
        match n with
        | .elem t a cs => .elem t a (HForest.append (rawFragment (jsStr o.html)) cs)
        | .raw s => .raw s)
    | none => doc
  else if o.op == "remove" then
    match querySelectorModel doc (jsStr o.selector) with
    | some p => removeAt doc p
    | none => doc
  else if o.op == "setAttribute" then
    match querySelectorModel doc (jsStr o.selector) with
    | some p => modifyAt doc p (fun n =>
        match n with
        | .elem t a cs => .elem t (setAttrList a (jsStr o.attrName) (jsStr o.value)) cs
        | .raw s => .raw s)
    | none => doc
  else if o.op == "removeAttribute" then
    match querySelectorModel doc (jsStr o.selector) with
    | some p => modifyAt doc p (fun n =>
        match n with
        | .elem t a cs => .elem t (removeAttrList a (jsStr o.attrName)) cs
        | .raw s => .raw s)
    | none => doc
  else
    doc

/-- Embedding of `applyHtmlPatch(oldHtml, patch)`: first scan the operation
list for a `replaceFullDocument` whose `html` is truthy and return that `html`
immediately; otherwise parse `oldHtml`, apply every operation in order, and
return `documentElement.outerHTML`.  (The surrounding `try`/`catch` that
returns `oldHtml` guards against `patch` not having an iterable `operations`
field, which the typed embedding rules out.) -/
def applyHtmlPatch (oldHtml : String) (patch : Patch) : String :=
  match patch.operations.find? (fun o => o.op == "replaceFullDocument" && truthyS o.html) with
  | some o => jsStr o.html
  | none => serializeNode (patch.operations.foldl applyOperation (parseHtml oldHtml))

/-!
## Theorems about the patch applier (claims C2, C3, C9)
-/

/-- Helper: `find?` skips a prefix in which nothing satisfies the predicate. -/
theorem find?_append_of_forall_false {α : Type} (p : α → Bool) (l1 l2 : List α)
    (h : ∀ x ∈ l1, p x = false) : (l1 ++ l2).find? p = l2.find? p := by
  induction l1 with
  | nil => rfl
  | cons a l ih =>
    have ha : p a = false := h a (List.mem_cons_self a l)
    simp only [List.cons_append, List.find?_cons, ha]
    exact ih (fun x hx => h x (List.mem_cons_of_mem a hx))

/-- Helper: `find?` ignores a middle element on which the predicate is false. -/
theorem find?_erase_middle {α : Type} (p : α → Bool) (l1 l2 : List α) (a : α)
    (h : p a = false) : (l1 ++ a :: l2).find? p = (l1 ++ l2).find? p := by
  induction l1 with
  | nil => simp only [List.nil_append, List.find?_cons, h]
  | cons b l ih =>
    simp only [List.cons_append, List.find?_cons]
    cases p b <;> simp [ih]

/-- Helper: `applyOperation` is the identity for a `replaceFullDocument`
operation (it is handled at a higher level and the per-operation switch does
nothing for it). -/
theorem applyOperation_replaceFullDocument (doc : HNode) (o : Operation)
    (hop : o.op = "replaceFullDocument") : applyOperation doc o = doc := by
  obtain ⟨op', sel, html, attr, val⟩ := o
  simp only at hop
  subst hop
  rfl

/-- Claim C2 (amended): for every `oldHtml` and every patch whose operation
list contains a `replaceFullDocument` operation with a truthy (non-empty,
non-null) `html`, `applyHtmlPatch` returns the `html` of the first such
truthy-`html` operation, regardless of any other operations present. -/
theorem applyHtmlPatch_first_truthy_rfd_wins (oldHtml : String) (patch : Patch)
    (pre post : List Operation) (o : Operation) (h : String)
    (hops : patch.operations = pre ++ o :: post)
    (hop : o.op = "replaceFullDocument") (hh : o.html = some h) (hne : h ≠ "")
    (hpre : ∀ o' ∈ pre, ¬ (o'.op = "replaceFullDocument" ∧ truthyS o'.html = true)) :
    applyHtmlPatch oldHtml patch = h := by
  have hfind : patch.operations.find?
      (fun o => o.op == "replaceFullDocument" && truthyS o.html) = some o := by
    rw [hops]
    rw [find?_append_of_forall_false _ pre _ (fun x hx => by
      have := hpre x hx
      cases hb : (x.op == "replaceFullDocument" && truthyS x.html) with
      | false => rfl
      | true =>
        exact absurd ⟨by simpa using (Bool.and_eq_true _ _ |>.mp hb).1,
          (Bool.and_eq_true _ _ |>.mp hb).2⟩ this)]
    have hpo : (fun o => o.op == "replaceFullDocument" && truthyS o.html) o = true := by
      simp [hop, hh, truthyS, hne]
    simp [List.find?_cons, hpo]
  unfold applyHtmlPatch
  rw [hfind]
  simp [jsStr, hh]

/-- Witness for C2 (amended): a patch holding an `append` operation followed by
a truthy `replaceFullDocument` yields exactly the latter's `html`. -/
theorem applyHtmlPatch_first_truthy_rfd_wins_witness :
    applyHtmlPatch "old"
      ⟨"1.0", [⟨"append", some "#app-main", some "<p>x</p>", none, none⟩,
               ⟨"replaceFullDocument", none, some "NEW", none, none⟩]⟩ = "NEW" :=
  applyHtmlPatch_first_truthy_rfd_wins "old" _
    [⟨"append", some "#app-main", some "<p>x</p>", none, none⟩] []
    ⟨"replaceFullDocument", none, some "NEW", none, none⟩ "NEW"
    rfl rfl rfl (by decide) (by decide)

/-- Claim C2 (counterexample to the claim as stated): in a patch whose first
`replaceFullDocument` operation has the empty string as its `html`,
`applyHtmlPatch` does not return that first operation's `html` value; a later
truthy `replaceFullDocument` wins instead. -/
theorem applyHtmlPatch_first_rfd_does_not_always_win :
    applyHtmlPatch "old"
      ⟨"1.0", [⟨"replaceFullDocument", none, some "", none, none⟩,
               ⟨"replaceFullDocument", none, some "NEW", none, none⟩]⟩ = "NEW" ∧
    (Patch.operations ⟨"1.0", [⟨"replaceFullDocument", none, some "", none, none⟩,
               ⟨"replaceFullDocument", none, some "NEW", none, none⟩]⟩).find?
      (fun o => o.op == "replaceFullDocument")
      = some ⟨"replaceFullDocument", none, some "", none, none⟩ ∧
    ("NEW" : String) ≠ "" := by
  refine ⟨by decide, by decide, by decide⟩

/-- Claim C3 (amended): applying a patch with an empty operation list returns
the `outerHTML` serialisation of the parsed input document — not, in general,
the input string itself. -/
theorem applyHtmlPatch_empty_ops (oldHtml v : String) :
    applyHtmlPatch oldHtml ⟨v, []⟩ = serializeNode (parseHtml oldHtml) := rfl

/-- Claim C3 (counterexample to the claim as stated): on the input `"hello"`
(not already in parsed-serialised normal form) an empty patch returns the
normalised document, which differs from the input. -/
theorem applyHtmlPatch_empty_ops_not_identity :
    applyHtmlPatch "hello" ⟨"1.0", []⟩ = "<html><head></head><body>hello</body></html>" ∧
    applyHtmlPatch "hello" ⟨"1.0", []⟩ ≠ "hello" := by
  refine ⟨by decide, by decide⟩

/-- Claim C9: a `replaceFullDocument` operation whose `html` is missing, null
or empty is not treated as a full-document override: it is a no-op during
per-operation application, and the patch behaves exactly as if the operation
were deleted from the list (all other operations still applied in order). -/
theorem applyHtmlPatch_falsy_rfd_skipped (oldHtml v : String) (doc : HNode)
    (pre post : List Operation) (o : Operation)
    (hop : o.op = "replaceFullDocument") (hh : truthyS o.html = false) :
    applyOperation doc o = doc ∧
    applyHtmlPatch oldHtml ⟨v, pre ++ o :: post⟩ = applyHtmlPatch oldHtml ⟨v, pre ++ post⟩ := by
  constructor
  · exact applyOperation_replaceFullDocument doc o hop
  · unfold applyHtmlPatch
    have hpo : (fun o => o.op == "replaceFullDocument" && truthyS o.html) o = false := by
      simp [hh]
    rw [show (Patch.operations ⟨v, pre ++ o :: post⟩) = pre ++ o :: post from rfl,
        show (Patch.operations ⟨v, pre ++ post⟩) = pre ++ post from rfl,
        find?_erase_middle _ pre post o hpo]
    cases hfind : (pre ++ post).find? (fun o => o.op == "replaceFullDocument" && truthyS o.html) with
    | some o' => rfl
    | none =>
      simp only [List.foldl_append, List.foldl_cons,
        applyOperation_replaceFullDocument _ o hop]

/-- Witness for C9: dropping an empty-`html` `replaceFullDocument` from a
patch leaves the output unchanged, and the remaining `setAttribute` operation
is still applied. -/
theorem applyHtmlPatch_falsy_rfd_skipped_witness :
    (applyOperation (parseHtml "hello") ⟨"replaceFullDocument", none, some "", none, none⟩
        = parseHtml "hello" ∧
      applyHtmlPatch "hello"
        ⟨"1.0", [⟨"replaceFullDocument", none, some "", none, none⟩,
                 ⟨"setAttribute", some "body", none, some "class", some "retro-body"⟩]⟩
      = applyHtmlPatch "hello"
        ⟨"1.0", [⟨"setAttribute", some "body", none, some "class", some "retro-body"⟩]⟩) ∧
    applyHtmlPatch "hello"
        ⟨"1.0", [⟨"replaceFullDocument", none, some "", none, none⟩,
                 ⟨"setAttribute", some "body", none, some "class", some "retro-body"⟩]⟩
      = "<html><head></head><body class=\"retro-body\">hello</body></html>" :=
  ⟨applyHtmlPatch_falsy_rfd_skipped "hello" "1.0" (parseHtml "hello")
      [] [⟨"setAttribute", some "body", none, some "class", some "retro-body"⟩]
      ⟨"replaceFullDocument", none, some "", none, none⟩ rfl rfl,
    by decide⟩

/-!
## Response cache read path (`getCacheResponse`, llmPatch/index.js) — claim C4

`localStorage` is modelled by the looked-up value of the hash-derived cache
key: `none` for a missing item, `some none` for an item whose JSON failed to
parse (the surrounding `catch` returns null), and `some (some e)` for a parsed
entry.  The lazy eviction (`localStorage.removeItem`) is a side effect on
storage that does not change the returned value and is not tracked.
-/

/-- A parsed cache entry.  `data` stands for the raw cached payload (a falsy
payload is `none`); `timestamp` is falsy when absent or zero. -/
structure CacheEntry where
  data : Option String
  prompt : Option String
  type : Option String
  timestamp : Option Int
  version : Option String
deriving DecidableEq, Repr

/-- JavaScript truthiness of the `timestamp` field. -/
def truthyTs : Option Int → Bool
  | none => false
  | some t => t ≠ 0

/-- The 24-hour TTL (`24 * 60 * 60 * 1000` milliseconds). -/
def cacheMaxAge : Int := 24 * 60 * 60 * 1000

/-- Embedding of `getCacheResponse(cacheKey, prompt, type)` evaluated at
`Date.now() = now`, with `stored` the storage content under `cacheKey`:
structure check, 24-hour expiry check, exact prompt comparison (the hash
collision guard), and type comparison, in that order. -/
def getCacheResponse (stored : Option (Option CacheEntry)) (prompt ty : String)
    (now : Int) : Option String :=
  match stored with
  | none => none
  | some none => none
  | some (some e) =>
    if ¬ truthyS e.data ∨ ¬ truthyTs e.timestamp ∨ ¬ truthyS e.prompt then none
    else if now - e.timestamp.getD 0 > cacheMaxAge then none
    else if e.prompt ≠ some prompt then none
    else if e.type ≠ some ty then none
    else e.data

/-- Claim C4: a cache hit is returned only when the stored prompt is
byte-identical to the requested prompt, the stored type matches, and the entry
age is within the 24-hour TTL; in particular, an entry stored under the looked
up hash key whose prompt differs from the requested prompt is a miss. -/
theorem getCacheResponse_hit_iff_exact_prompt_and_fresh
    (stored : Option (Option CacheEntry)) (prompt ty : String) (now : Int) :
    (∀ d, getCacheResponse stored prompt ty now = some d →
      ∃ e, stored = some (some e) ∧ e.prompt = some prompt ∧ e.type = some ty ∧
        now - e.timestamp.getD 0 ≤ cacheMaxAge ∧ e.data = some d) ∧
    (∀ e, stored = some (some e) → e.prompt ≠ some prompt →
      getCacheResponse stored prompt ty now = none) := by
  constructor
  · intro d hd
    match stored with
    | none => simp [getCacheResponse] at hd
    | some none => simp [getCacheResponse] at hd
    | some (some e) =>
      refine ⟨e, rfl, ?_⟩
      simp only [getCacheResponse] at hd
      split_ifs at hd with h1 h2 h3 h4
      exact ⟨by simpa using h3, by simpa using h4, by omega, hd⟩
  · intro e he hne
    subst he
    simp only [getCacheResponse]
    split_ifs <;> simp_all

/-- Witness for C4: a stored entry with prompt `"PROMPT-A"` is a miss for the
request `"PROMPT-B"` that hashed to the same bucket, even though it is fresh. -/
theorem getCacheResponse_collision_miss_witness :
    getCacheResponse
      (some (some ⟨some "payload", some "PROMPT-A", some "selection", some 1000, some "1.1"⟩))
      "PROMPT-B" "selection" 2000 = none :=
  (getCacheResponse_hit_iff_exact_prompt_and_fresh
      (some (some ⟨some "payload", some "PROMPT-A", some "selection", some 1000, some "1.1"⟩))
      "PROMPT-B" "selection" 2000).2
    ⟨some "payload", some "PROMPT-A", some "selection", some 1000, some "1.1"⟩
    rfl (by decide)

/-!
## The retrying network wrapper (`makeApiRequest`, llmPatch/index.js) — claim C10
-/

/-- A `fetch` response as far as `makeApiRequest` inspects it: `ok`, `status`,
the `retry-after` header (only used to compute the sleep duration, which the
model elides) and the JSON body text. -/
structure FetchResp where
  ok : Bool
  status : Nat
  retryAfter : Option String
  body : String
deriving DecidableEq, Repr

/-- What `makeApiRequest` can hand back to its caller: the mock object built
around a cached payload, or a real `fetch` response. -/
inductive ApiResponse where
  | cached : String → ApiResponse
  | real : FetchResp → ApiResponse
deriving DecidableEq, Repr

/-- The retry loop of `makeApiRequest`, one recursive step per `for` iteration:
`attempt` is the loop counter and `remaining + 1` the number of iterations left
(so `remaining = 0` exactly when `attempt === maxRetries - 1`).  A 429 sleeps
(elided) and continues; a rejected fetch or a thrown non-ok status is caught
and retried, and rethrown on the last attempt; falling off the loop returns
JavaScript `undefined`, modelled as `.ok none`. -/
def makeApiRequestGo (fetches : Nat → Except String FetchResp) :
    Nat → Nat → Except String (Option ApiResponse)
  | _, 0 => .ok none
  | attempt, remaining + 1 =>
    match fetches attempt with
    | .error e =>
      if remaining = 0 then .error e
      else makeApiRequestGo fetches (attempt + 1) remaining
    | .ok r =>
      if r.status = 429 then makeApiRequestGo fetches (attempt + 1) remaining
      else if r.ok = false then
        (if remaining = 0 then .error "API request failed"
         else makeApiRequestGo fetches (attempt + 1) remaining)
      else .ok (some (.real r))

/-- Embedding of `makeApiRequest(apiKey, prompt, type)`: `cachedResponse` is
the result of the cache lookup; when it is truthy a mock response object wraps
it, otherwise the three-attempt retry loop runs (`maxRetries = 3`).  The
write-through `storeCacheResponse` on success is a storage side effect not
tracked here. -/
def makeApiRequest (cachedResponse : Option String)
    (fetches : Nat → Except String FetchResp) : Except String (Option ApiResponse) :=
  if truthyS cachedResponse then .ok (some (.cached (jsStr cachedResponse)))
  else makeApiRequestGo fetches 0 3

/-- Model of the caller invoking `response.json()` on what `makeApiRequest`
returned: on `undefined` this is the `TypeError` that actually surfaces. -/
def jsonOfResponse : Option ApiResponse → Except String String
  | none => .error "TypeError: response is undefined"
  | some (.cached d) => .ok d
  | some (.real r) => .ok r.body

/-- Claim C10: when the cache misses and all three attempts return HTTP 429,
`makeApiRequest` neither throws nor returns a response: the loop is exhausted
through `continue` and the function returns `undefined`, and the error only
surfaces when the caller invokes `response.json()` on that `undefined`. -/
theorem makeApiRequest_exhausted_429_returns_undefined
    (fetches : Nat → Except String FetchResp)
    (h : ∀ i, i < 3 → ∃ r, fetches i = .ok r ∧ r.status = 429) :
    makeApiRequest none fetches = .ok none ∧
    (∀ o, makeApiRequest none fetches = .ok o → jsonOfResponse o =
      .error "TypeError: response is undefined") := by
  obtain ⟨r0, hf0, hs0⟩ := h 0 (by omega)
  obtain ⟨r1, hf1, hs1⟩ := h 1 (by omega)
  obtain ⟨r2, hf2, hs2⟩ := h 2 (by omega)
  have hmain : makeApiRequest none fetches = .ok none := by
    simp [makeApiRequest, makeApiRequestGo, truthyS, hf0, hf1, hf2, hs0, hs1, hs2]
  refine ⟨hmain, fun o ho => ?_⟩
  rw [hmain] at ho
  cases ho
  rfl

/-- Witness for C10: a server that always answers 429 drives `makeApiRequest`
to return `undefined` (`.ok none`). -/
theorem makeApiRequest_exhausted_429_witness :
    makeApiRequest none (fun _ => .ok ⟨false, 429, none, ""⟩) = .ok none ∧
    (∀ o, makeApiRequest none (fun _ => .ok ⟨false, 429, none, ""⟩) = .ok o →
      jsonOfResponse o = .error "TypeError: response is undefined") :=
  makeApiRequest_exhausted_429_returns_undefined _
    (fun _ _ => ⟨⟨false, 429, none, ""⟩, rfl, rfl⟩)

/-!
## Element records and the chunked-selection merge — claim C6

The element descriptors that flow through the selection stage are the JSON
objects produced by `preTrimDom` (keys `tag`, `id`, `label`, `text`,
`selector`, `type`, `isInteractive`, `isNavigationCandidate`) or whatever the
LLM returned in their place; each field is a `JsVal` so that absent fields and
non-string values are representable.
-/

/-- A flat element descriptor record. -/
structure Element where
  tag : JsVal
  id : JsVal
  label : JsVal
  text : JsVal
  selector : JsVal
  type : JsVal
  isInteractive : JsVal
  isNavigationCandidate : JsVal
deriving DecidableEq, Repr

/-- The running filter of `removeDuplicateElements`: `seen` is the `Set` of
selector values added so far.  An element with a truthy selector already seen
is dropped; an element with a truthy unseen selector is kept and its selector
added; an element with a falsy (missing/empty) selector is always kept and
nothing is added. -/
def removeDuplicateElementsGo (seen : List JsVal) : List Element → List Element
  | [] => []
  | e :: es =>
    if e.selector.truthy ∧ seen.contains e.selector then removeDuplicateElementsGo seen es
    else if e.selector.truthy then e :: removeDuplicateElementsGo (e.selector :: seen) es
    else e :: removeDuplicateElementsGo seen es

/-- Embedding of `removeDuplicateElements(elements)`. -/
def removeDuplicateElements (elements : List Element) : List Element :=
  removeDuplicateElementsGo [] elements

/-- The high-priority-tag test of `isHighPriorityElement`. -/
def isHighPriorityTag (v : JsVal) : Bool :=
  match v with
  | .str t => ["input", "button", "a", "select", "textarea"].contains t
  | _ => false

/-- The keyword test of `isHighPriorityElement` on the `text` field.  (A
truthy non-string `text` would make the JavaScript `toLowerCase()` call
throw; that corner is outside the behaviours exercised and is modelled as a
non-match.) -/
def hasHighPriorityKeyword (v : JsVal) : Bool :=
  match v with
  | .str t => t ≠ "" &&
      (["search", "login", "menu", "buy", "cart", "submit"].any
        (fun k => jsIncludes (jsToLower t) k))
  | _ => false

/-- Embedding of `isHighPriorityElement(element)`: high-priority tag, or text
containing one of six keywords. -/
def isHighPriorityElement (e : Element) : Bool :=
  isHighPriorityTag e.tag || hasHighPriorityKeyword e.text

/-- The per-chunk result record built by `selectElementsChunk`. -/
structure ChunkResult where
  elements : List Element
  success : Bool
  index : Nat
deriving DecidableEq, Repr

/-- Embedding of `mergeFilteredElementChunks(filteredChunks)`: successful
chunks contribute their elements as-is, failed chunks contribute only their
interactive / navigation-candidate / high-priority elements, and the
concatenation is deduplicated by selector.  (`Array.isArray(result.elements)`
always holds in the typed embedding, so the invalid-structure branch that
contributes nothing is unreachable.) -/
def mergeFilteredElementChunks (filteredChunks : List ChunkResult) : List Element :=
  removeDuplicateElements (filteredChunks.foldl (fun acc r =>
    if r.success then acc ++ r.elements
    else acc ++ r.elements.filter (fun el =>
      el.isInteractive.truthy || el.isNavigationCandidate.truthy || isHighPriorityElement el)) [])

/-- Helper: elements surviving deduplication with a truthy selector were not
already in `seen`. -/
theorem mem_removeDuplicateElementsGo_not_seen (es : List Element) :
    ∀ seen e, e ∈ removeDuplicateElementsGo seen es → e.selector.truthy = true →
      ¬ seen.contains e.selector = true := by
  induction es with
  | nil => intro seen e he; simp [removeDuplicateElementsGo] at he
  | cons hd tl ih =>
    intro seen e he htr
    by_cases h1 : hd.selector.truthy = true ∧ seen.contains hd.selector = true
    · rw [removeDuplicateElementsGo, if_pos (by simpa using h1)] at he
      exact ih seen e he htr
    · by_cases h2 : hd.selector.truthy = true
      · rw [removeDuplicateElementsGo, if_neg (by simpa using h1), if_pos h2] at he
        rcases List.mem_cons.mp he with rfl | hmem
        · intro hc; exact h1 ⟨htr, hc⟩
        · intro hc
          have hmm := ih (hd.selector :: seen) e hmem htr
          exact hmm (by simp only [List.contains_cons, hc, Bool.or_true])
      · rw [removeDuplicateElementsGo, if_neg (by simpa using h1), if_neg h2] at he
        rcases List.mem_cons.mp he with rfl | hmem
        · exact absurd htr h2
        · exact ih seen e hmem htr

/-- Helper: deduplication yields a list in which any two elements with truthy
selectors have different selectors. -/
theorem removeDuplicateElementsGo_pairwise (es : List Element) :
    ∀ seen, List.Pairwise (fun a b => a.selector.truthy = true →
      b.selector.truthy = true → a.selector ≠ b.selector)
      (removeDuplicateElementsGo seen es) := by
  induction es with
  | nil => intro seen; simp [removeDuplicateElementsGo]
  | cons hd tl ih =>
    intro seen
    by_cases h1 : hd.selector.truthy = true ∧ seen.contains hd.selector = true
    · rw [removeDuplicateElementsGo, if_pos (by simpa using h1)]
      exact ih seen
    · by_cases h2 : hd.selector.truthy = true
      · rw [removeDuplicateElementsGo, if_neg (by simpa using h1), if_pos h2]
        refine List.Pairwise.cons ?_ (ih (hd.selector :: seen))
        intro b hb _ hbtr heq
        have := mem_removeDuplicateElementsGo_not_seen tl (hd.selector :: seen) b hb hbtr
        simp only [List.contains_cons] at this
        exact this (by simp [heq])
      · rw [removeDuplicateElementsGo, if_neg (by simpa using h1), if_neg h2]
        refine List.Pairwise.cons ?_ (ih seen)
        intro b _ habs
        exact absurd habs h2

/-- Claim C6 (amended): the merged, deduplicated union produced by the chunked
selection path contains no two descriptors sharing the same truthy (non-empty)
selector; descriptors with a missing or empty selector are exempt from
deduplication and are all retained. -/
theorem mergeFilteredElementChunks_truthy_selectors_distinct
    (filteredChunks : List ChunkResult) :
    List.Pairwise (fun a b => a.selector.truthy = true → b.selector.truthy = true →
      a.selector ≠ b.selector) (mergeFilteredElementChunks filteredChunks) :=
  removeDuplicateElementsGo_pairwise _ []

/-- A first element with an empty selector, for the C6 counterexample. -/
def dupSelElemA : Element :=
  ⟨.str "div", .undef, .undef, .str "A", .str "", .undef, .bool true, .bool false⟩

/-- A second, different element with the same empty selector. -/
def dupSelElemB : Element :=
  ⟨.str "div", .undef, .undef, .str "B", .str "", .undef, .bool true, .bool false⟩

/-- Claim C6 (counterexample to the claim as stated): merging two successful
chunks whose elements both carry the selector value `""` keeps both, so the
merged union does contain two distinct descriptors sharing one selector
value. -/
theorem mergeFilteredElementChunks_empty_selector_dupes :
    mergeFilteredElementChunks [⟨[dupSelElemA], true, 0⟩, ⟨[dupSelElemB], true, 1⟩]
      = [dupSelElemA, dupSelElemB] ∧
    dupSelElemA.selector = dupSelElemB.selector ∧
    dupSelElemA ≠ dupSelElemB := by
  refine ⟨by decide, by decide, by decide⟩

/-!
## The serializer's robust selector (`computeRobustSelector`, LLMIntegration) — claim C1

The element being serialised is addressed by its path of child indices in the
captured document tree.  `siblings.indexOf(current)` compares DOM node
identity, which the path representation models exactly: the element's position
among its same-tag siblings is the number of same-tag element children before
its index.
-/

/-- One path segment of `computeRobustSelector`: the tag, an optional dotted
class list, an optional role test and an optional `:nth-child(k)` for the
element at `p` — with `k` computed, as in the source, as the element's 1-based
position among its SAME-TAG siblings (only emitted when there is more than
one such sibling). -/
def crsSegment (root : HNode) (p : List Nat) : String :=
  match nodeAt root p with
  | none => ""
  | some n =>
    let tagStr := jsToLower n.tag
    let cls := classListOf n
    let clsPart :=
      if cls.length > 0 ∧ cls.length ≤ 3 then
        let kept := cls.filter (fun c => ¬ (jsStartsWith c "ng-" || jsStartsWith c "react-"
          || jsStartsWith c "vue-" || jsStartsWith c "js-"))
        if kept.length > 0 then "." ++ joinSep "." kept else ""
      else ""
    let rolePart :=
      match n.getAttr "role" with
      | some r => if r ≠ "" then "[role=\"" ++ r ++ "\"]" else ""
      | none => ""
    let nthPart :=
      match p.getLast?, nodeAt root p.dropLast with
      | some i, some parent =>
        let sibs := (parent.children.toList.filter (fun s => s.isElem)).filter
          (fun s => s.tag == n.tag)
        if sibs.length > 1 then
          let before := (parent.children.toList.take i).filter
            (fun s => s.isElem && s.tag == n.tag)
          ":nth-child(" ++ toString (before.length + 1) ++ ")"
        else ""
      | _, _ => ""
    tagStr ++ clsPart ++ rolePart ++ nthPart

/-- The segments collected by the `while` loop of `computeRobustSelector`,
ancestors first (the loop `unshift`s while walking from the element up to, and
excluding, `document.documentElement`). -/
def crsSegments (root : HNode) (pre : List Nat) : List Nat → List String
  | [] => []
  | i :: rest => crsSegment root (pre ++ [i]) :: crsSegments root (pre ++ [i]) rest

/-- Embedding of `computeRobustSelector(element)` for the element at path `p`
of the captured document `root`: `#id` when the element has a truthy `id`,
otherwise the `" > "`-joined path of tag/class/role/:nth-child segments. -/
def computeRobustSelector (root : HNode) (p : List Nat) : String :=
  let idAttr := (nodeAt root p).bind (fun n => n.getAttr "id")
  if truthyS idAttr then "#" ++ jsStr idAttr
  else joinSep " > " (crsSegments root [] p)

/-- The captured document for claim C1: a body whose children are a `span`
followed by two `div`s. -/
def c1doc : HNode :=
  .elem "html" [] (.cons (.elem "head" [] .nil)
    (.cons (.elem "body" []
      (.cons (.elem "span" [] .nil)
        (.cons (.elem "div" [] .nil)
          (.cons (.elem "div" [] .nil) .nil)))) .nil))

/-- Claim C1 (code bug): the selector computed for the second `div` — the
THIRD child of `body`, at path `[1, 2]` — is `"body > div:nth-child(2)"`,
because the source counts the element's position among its same-tag siblings;
but CSS `:nth-child` counts all element siblings, so standard selector
matching resolves that selector to the FIRST `div` (the second child, path
`[1, 1]`), not to the originating element. -/
theorem computeRobustSelector_nth_child_mismatch :
    computeRobustSelector c1doc [1, 2] = "body > div:nth-child(2)" ∧
    querySelectorModel c1doc "body > div:nth-child(2)" = some [1, 1] ∧
    ([1, 1] : List Nat) ≠ [1, 2] := by
  refine ⟨by decide, by decide, by decide⟩

/-!
## Overlay controller mode machines (`DOMToggleExtension.setMode`) — claim C7

Two variants exist: the one in `content.js` and the one in the unnamed
content-script variant (`src/unnamed/part_001`).  The observable state is the
set of extension-controlled CSS classes, the iframe `src` and the URL-sync
flag; every primitive DOM call the code performs (`classList.add/remove` on a
target — the per-element `forEach` over the original elements collapsed to one
event — the iframe `src` assignment, and the `generateContent` pipeline call)
is additionally recorded in an event trace, so that "revert/entry logic runs"
is an inspectable fact even when the final state is unchanged. -/
inductive ModeEvent where
  | addClass : String → String → ModeEvent
  | removeClass : String → String → ModeEvent
  | setIframeSrc : String → ModeEvent
  | generateContent : ModeEvent
deriving DecidableEq, Repr

/-- The controller state: current mode string, the class-controlled visibility
booleans, the iframe source, and (part_001 only) the URL-sync flag. -/
structure ToggleState where
  currentMode : String
  originalsHidden : Bool
  iframeHidden : Bool
  generatedHidden : Bool
  generatedSideBySide : Bool
  generatedOverlay : Bool
  sideBarHidden : Bool
  bodySideBySide : Bool
  bodyOverlay : Bool
  iframeSrc : Option String
  urlSyncEnabled : Bool
deriving DecidableEq, Repr

/-- Embedding of `setNormalMode` (content.js): un-hide the originals, hide the
generated surface, side bar and iframe, and drop the body mode classes. -/
def setNormalModeC (s : ToggleState) : ToggleState × List ModeEvent :=
  ({ s with
      currentMode := "normal", originalsHidden := false, generatedHidden := true,
      generatedSideBySide := false, generatedOverlay := false, sideBarHidden := true,
      iframeHidden := true, bodySideBySide := false, bodyOverlay := false },
   [.removeClass "original-elements" "hidden-by-extension",
    .addClass "generated-content-overlay" "hidden",
    .removeClass "generated-content-overlay" "side-by-side-mode",
    .removeClass "generated-content-overlay" "overlay-mode",
    .addClass "side-by-side-container" "hidden",
    .addClass "original-content-iframe" "hidden",
    .removeClass "body" "side-by-side-active",
    .removeClass "body" "overlay-active"])

/-- Embedding of `setSideBySideMode` (content.js): hide originals, point the
iframe at the page URL, show iframe, generated panel and side bar. -/
def setSideBySideModeC (url : String) (s : ToggleState) : ToggleState × List ModeEvent :=
  ({ s with
      currentMode := "side-by-side", originalsHidden := true, iframeSrc := some url,
      iframeHidden := false, generatedHidden := false, generatedSideBySide := true,
      sideBarHidden := false, bodySideBySide := true },
   [.addClass "original-elements" "hidden-by-extension",
    .setIframeSrc url,
    .removeClass "original-content-iframe" "hidden",
    .removeClass "generated-content-overlay" "hidden",
    .addClass "generated-content-overlay" "side-by-side-mode",
    .removeClass "side-by-side-container" "hidden",
    .addClass "body" "side-by-side-active"])

/-- Embedding of `setOverlayMode` (content.js). -/
def setOverlayModeC (s : ToggleState) : ToggleState × List ModeEvent :=
  ({ s with
      currentMode := "overlay", originalsHidden := true, generatedHidden := false,
      generatedOverlay := true, bodyOverlay := true },
   [.addClass "original-elements" "hidden-by-extension",
    .removeClass "generated-content-overlay" "hidden",
    .addClass "generated-content-overlay" "overlay-mode",
    .addClass "body" "overlay-active"])

/-- Embedding of `setMode(mode)` from `content.js` (lines 183–202): ALWAYS
reset to normal first, then apply the requested mode — there is no guard
against re-requesting the active mode. -/
def contentSetMode (url : String) (s : ToggleState) (mode : String) :
    ToggleState × List ModeEvent :=
  let (s1, t1) := setNormalModeC s
  let s2 := { s1 with currentMode := mode }
  let (s3, t3) :=
    if mode == "side-by-side" then setSideBySideModeC url s2
    else if mode == "overlay" then setOverlayModeC s2
    else setNormalModeC s2
  (s3, t1 ++ t3)

/-- Embedding of `setNormalMode` from the part_001 variant: as in content.js
plus `disableUrlSync` (interval clearing carries no DOM event). -/
def setNormalModeP (s : ToggleState) : ToggleState × List ModeEvent :=
  let (s1, t1) := setNormalModeC s
  ({ s1 with urlSyncEnabled := false }, t1)

/-- Embedding of `setSideBySideMode` from the part_001 variant: generate
content FIRST, then hide originals, sync the iframe URL (enabling URL sync)
and show the surfaces. -/
def setSideBySideModeP (url : String) (s : ToggleState) : ToggleState × List ModeEvent :=
  ({ s with
      currentMode := "side-by-side", originalsHidden := true, iframeSrc := some url,
      urlSyncEnabled := true, iframeHidden := false, generatedHidden := false,
      generatedSideBySide := true, sideBarHidden := false, bodySideBySide := true },
   [.generateContent,
    .addClass "original-elements" "hidden-by-extension",
    .setIframeSrc url,
    .removeClass "original-content-iframe" "hidden",
    .removeClass "generated-content-overlay" "hidden",
    .addClass "generated-content-overlay" "side-by-side-mode",
    .removeClass "side-by-side-container" "hidden",
    .addClass "body" "side-by-side-active"])

/-- Embedding of `setOverlayMode` from the part_001 variant. -/
def setOverlayModeP (s : ToggleState) : ToggleState × List ModeEvent :=
  ({ s with
      currentMode := "overlay", originalsHidden := true, generatedHidden := false,
      generatedOverlay := true, bodyOverlay := true },
   [.generateContent,
    .addClass "original-elements" "hidden-by-extension",
    .removeClass "generated-content-overlay" "hidden",
    .addClass "generated-content-overlay" "overlay-mode",
    .addClass "body" "overlay-active"])

/-- Embedding of `setMode(mode)` from the part_001 variant (lines 244–271):
requesting the currently-active mode returns immediately ("Prevent duplicate
mode switches"); otherwise reset to normal and apply the new mode. -/
def part001SetMode (url : String) (s : ToggleState) (mode : String) :
    ToggleState × List ModeEvent :=
  if s.currentMode == mode then (s, [])
  else
    let (s1, t1) := setNormalModeP s
    let s2 := { s1 with currentMode := mode }
    let (s3, t3) :=
      if mode == "side-by-side" then setSideBySideModeP url s2
      else if mode == "overlay" then setOverlayModeP s2
      else setNormalModeP s2
    (s3, t1 ++ t3)

/-- Claim C7 (amended, part_001 controller): requesting the currently-active
mode again is a no-op — the state is untouched and no DOM operation, revert or
entry logic, or content regeneration runs (the trace is empty). -/
theorem part001SetMode_reentry_noop (url : String) (s : ToggleState) (mode : String)
    (h : mode = s.currentMode) : part001SetMode url s mode = (s, []) := by
  subst h
  simp [part001SetMode]

/-- Witness for C7 (amended): re-requesting side-by-side from the side-by-side
state leaves the controller untouched with an empty trace. -/
theorem part001SetMode_reentry_noop_witness :
    part001SetMode "https://example.test/"
      ⟨"side-by-side", true, false, false, true, false, false, true, false,
        some "https://example.test/", true⟩ "side-by-side"
      = (⟨"side-by-side", true, false, false, true, false, false, true, false,
          some "https://example.test/", true⟩, []) :=
  part001SetMode_reentry_noop "https://example.test/" _ "side-by-side" rfl

/-- Claim C7 (counterexample to the claim as stated): the `content.js` variant
of `setMode` has no such guard — re-requesting the active side-by-side mode
leaves the final state unchanged but re-runs the whole revert-to-normal and
side-by-side entry logic (a non-empty DOM event trace that begins with the
revert and re-assigns the iframe source). -/
theorem contentSetMode_reentry_not_noop :
    (contentSetMode "https://example.test/"
      ⟨"side-by-side", true, false, false, true, false, false, true, false,
        some "https://example.test/", false⟩ "side-by-side").1
      = ⟨"side-by-side", true, false, false, true, false, false, true, false,
          some "https://example.test/", false⟩ ∧
    (contentSetMode "https://example.test/"
      ⟨"side-by-side", true, false, false, true, false, false, true, false,
        some "https://example.test/", false⟩ "side-by-side").2 ≠ [] ∧
    (ModeEvent.removeClass "original-elements" "hidden-by-extension")
      ∈ (contentSetMode "https://example.test/"
        ⟨"side-by-side", true, false, false, true, false, false, true, false,
          some "https://example.test/", false⟩ "side-by-side").2 ∧
    (ModeEvent.setIframeSrc "https://example.test/")
      ∈ (contentSetMode "https://example.test/"
        ⟨"side-by-side", true, false, false, true, false, false, true, false,
          some "https://example.test/", false⟩ "side-by-side").2 := by
  refine ⟨by decide, by decide, by decide, by decide⟩

/-!
## Element copier (`createCopy` / `addEventHandlers`, create_copy.js) — claim C8
-/

/-- Helper: `dropWhile` is idempotent. -/
theorem dropWhile_self_idem {α : Type} (p : α → Bool) (l : List α) :
    (l.dropWhile p).dropWhile p = l.dropWhile p := by
  induction l with
  | nil => rfl
  | cons c rest ih =>
    by_cases h : p c = true
    · simp [List.dropWhile_cons, h, ih]
    · simp [List.dropWhile_cons, h]

/-- Helper: the result of `dropWhile` is a suffix of the input. -/
theorem dropWhile_self_suffix {α : Type} (p : α → Bool) (l : List α) :
    (l.dropWhile p) <:+ l := by
  induction l with
  | nil => exact List.suffix_refl _
  | cons c rest ih =>
    by_cases h : p c = true
    · simpa [List.dropWhile_cons, h] using ih.trans (List.suffix_cons c rest)
    · simp [List.dropWhile_cons, h]

/-- Helper: a list fixed by `dropWhile` stays fixed on prefixes. -/
theorem dropWhile_fix_of_prefix {α : Type} (p : α → Bool) (l l' : List α)
    (hp : l' <+: l) (h : l.dropWhile p = l) : l'.dropWhile p = l' := by
  match l', hp with
  | [], _ => rfl
  | c :: r, hp =>
    obtain ⟨t, ht⟩ := hp
    have hc : p c = false := by
      by_contra hcc
      rw [Bool.not_eq_false] at hcc
      rw [← ht, List.cons_append, List.dropWhile_cons, if_pos hcc] at h
      have hlen := (dropWhile_self_suffix p (r ++ t)).length_le
      rw [h] at hlen
      simp at hlen
    simp [List.dropWhile_cons, hc]

/-- Helper: the JavaScript `trim` model is idempotent. -/
theorem jsTrim_idem (s : String) : jsTrim (jsTrim s) = jsTrim s := by
  obtain ⟨l⟩ := s
  show jsTrim (String.mk _) = String.mk _
  simp only [jsTrim]
  have h1 : ((l.dropWhile jsIsSpace).reverse.dropWhile jsIsSpace).reverse.dropWhile jsIsSpace
      = ((l.dropWhile jsIsSpace).reverse.dropWhile jsIsSpace).reverse := by
    refine dropWhile_fix_of_prefix _ (l.dropWhile jsIsSpace) _ ?_
      (dropWhile_self_idem jsIsSpace l)
    have hs : ((l.dropWhile jsIsSpace).reverse.dropWhile jsIsSpace)
        <:+ (l.dropWhile jsIsSpace).reverse := dropWhile_self_suffix _ _
    exact (by simpa using List.reverse_prefix.mpr hs)
  rw [h1]
  have h2 : (((l.dropWhile jsIsSpace).reverse.dropWhile jsIsSpace).reverse).reverse.dropWhile
      jsIsSpace = ((l.dropWhile jsIsSpace).reverse.dropWhile jsIsSpace) := by
    rw [List.reverse_reverse]
    exact dropWhile_self_idem _ _
  rw [h2]

/-- The element descriptor fields read by `createCopy`/`addEventHandlers`
(every field a JS string or absent; `type` is the input type). -/
structure Descriptor where
  tag : Option String
  type : Option String
  role : Option String
  text : Option String
  textContent : Option String
  value : Option String
  label : Option String
  title : Option String
  alt : Option String
  innerText : Option String
  innerHTML : Option String
  name : Option String
  href : Option String
  id : Option String
  placeholder : Option String
  selector : Option String
deriving DecidableEq, Repr

/-- Which synthetic handler `addEventHandlers` attaches. -/
inductive HandlerKind where
  | click : HandlerKind
  | change : HandlerKind
deriving DecidableEq, Repr

/-- The materialised DOM node: tag, display text, the `setAttribute` calls in
order, the `id`/class assignments, the preserved input properties, and the
attached handler kind. -/
structure CopyElement where
  tagName : String
  textContent : String
  attrs : List (String × String)
  id : Option String
  classes : List String
  inputType : Option String
  inputValue : Option String
  inputPlaceholder : Option String
  inputName : Option String
  handler : Option HandlerKind
deriving DecidableEq, Repr

/-- Embedding of the `shouldRenderAsButton` test of `createCopy`: original tag
`button` or `a`, an `input` of type `button`/`submit`, or `role="button"`. -/
def shouldRenderAsButton (d : Descriptor) : Bool :=
  let tagName := jsToLower (jsStr d.tag)
  tagName == "button" || tagName == "a" ||
    (tagName == "input" && (d.type == some "button" || d.type == some "submit")) ||
    d.role == some "button"

/-- Model of the global regex replace `/<[^>]*>/g` used to clean HTML tags out
of link text (fuel-bounded scan, one character consumed per step). -/
def stripTagsGo : Nat → List Char → List Char
  | _, [] => []
  | 0, cs => cs
  | fuel + 1, '<' :: rest =>
    (match rest.dropWhile (fun c => c ≠ '>') with
     | '>' :: rest' => stripTagsGo fuel rest'
     | _ => '<' :: stripTagsGo fuel rest)
  | fuel + 1, c :: rest => c :: stripTagsGo fuel rest

/-- Model of `textContent.replace(/<[^>]*>/g, '')`. -/
def stripTags (s : String) : String :=
  String.mk (stripTagsGo s.data.length s.data)

/-- The final display-text step of `createCopy`: trim a truthy text and fall
back to the `[Button]`/`[Link]`/`[Element]` placeholders when the text is
missing or all whitespace (non-clickable elements with no text keep the empty
default `textContent`). -/
def finishDisplayText (isBtn isAnchor : Bool) (t6 : Option String) : String :=
  if truthyS t6 then
    let tr := jsTrim (jsStr t6)
    if tr ≠ "" then tr
    else if isBtn then "[Button]" else "[Element]"
  else if isBtn then (if isAnchor then "[Link]" else "[Button]")
  else ""

/-- The display-text derivation of `createCopy`, step by step as in the
source: `text || textContent`; for inputs a truthy `value` OVERRIDES it; for
role-button inputs with no text yet, `value || title || alt`; for links with
no text yet, `innerText || innerHTML || title || alt || name` followed by the
HTML-tag strip-and-trim when the text contains `<`; then the `label`
fallback; finally trim, with `[Button]`/`[Link]`/`[Element]` placeholders for
empty or missing text. -/
def copyDisplayText (d : Descriptor) : String :=
  let tagName := jsToLower (jsStr d.tag)
  let t1 := jsOr d.text d.textContent
  let t2 := if tagName == "input" ∧ truthyS d.value then d.value else t1
  let t3 := if shouldRenderAsButton d ∧ tagName == "input" ∧ d.role == some "button"
      ∧ ¬ truthyS t2 then jsOr d.value (jsOr d.title d.alt) else t2
  let t4 := if shouldRenderAsButton d ∧ tagName == "a" ∧ ¬ truthyS t3
      then jsOr d.innerText (jsOr d.innerHTML (jsOr d.title (jsOr d.alt d.name))) else t3
  let t5 := if shouldRenderAsButton d ∧ tagName == "a" ∧ truthyS t4
      ∧ jsIncludes (jsStr t4) "<"
      then some (jsTrim (stripTags (jsStr t4))) else t4
  let t6 := if ¬ truthyS t5 ∧ truthyS d.label then d.label else t5
  finishDisplayText (shouldRenderAsButton d) (tagName == "a") t6

/-- Embedding of one `createCopy` loop iteration together with its
`addEventHandlers` call: `none` when the descriptor has no truthy `tag`
(skipped with a warning); otherwise the materialised element and the selector
registry entry `(elemId, fullSelector)`.  `elemId` stands for the random
`elem-…` identifier, supplied by the caller as a modelling oracle. -/
def createCopyOne (d : Descriptor) (elemId : String) :
    Option (CopyElement × (String × String)) :=
  if truthyS (d.tag.map jsToLower) = false then none
  else
    let tagName := jsToLower (jsStr d.tag)
    let isBtn := shouldRenderAsButton d
    let newTag := if isBtn then "button" else tagName
    let hrefAttrs := if isBtn ∧ tagName == "a" ∧ truthyS d.href then
        [("title", "Link: " ++ jsStr d.href), ("data-original-href", jsStr d.href)]
      else []
    let idField := if truthyS d.id then d.id else none
    let ariaAttrs := if truthyS d.label then [("aria-label", jsStr d.label)] else []
    let keepInput := tagName == "input" ∧ ¬ isBtn
    let inputType := if keepInput ∧ truthyS d.type then d.type else none
    let inputValue := if keepInput ∧ truthyS d.value then d.value else none
    let inputPlaceholder := if keepInput ∧ truthyS d.placeholder then d.placeholder else none
    let inputName := if keepInput ∧ truthyS d.name then d.name else none
    let classes := if isBtn then ["retro-button"] else []
    let origTypeAttrs := if isBtn then
        ("data-original-type", tagName) ::
          (if tagName == "input" then [("data-original-input-type", jsStr d.type)] else [])
      else []
    let fullSelector := if truthyS d.selector then jsStr d.selector else ""
    let displaySelector :=
      if fullSelector.length > 100 then
        let parts := (splitArrow fullSelector.data).map String.mk
        match parts.getLast? with
        | some last => if last ≠ "" then last
            else String.mk (fullSelector.data.take 100) ++ "..."
        | none => String.mk (fullSelector.data.take 100) ++ "..."
      else fullSelector
    let handlerAttrs := [("data-selector", displaySelector), ("data-elem-id", elemId)]
    let handler :=
      if newTag == "button" ∨ newTag == "a" then some HandlerKind.click
      else if newTag == "input" ∨ newTag == "textarea" then some HandlerKind.change
      else none
    some (⟨newTag, copyDisplayText d, hrefAttrs ++ ariaAttrs ++ origTypeAttrs ++ handlerAttrs,
      idField, classes, inputType, inputValue, inputPlaceholder, inputName, handler⟩,
      (elemId, fullSelector))

/-- Embedding of `createCopy(domElements)` on an element array: skipped
descriptors produce nothing; the id oracle is indexed by input position.
Returns the materialised elements and the selector registry entries. -/
def createCopyGo (idGen : Nat → String) : Nat → List Descriptor →
    List CopyElement × List (String × String)
  | _, [] => ([], [])
  | i, d :: rest =>
    let (es, reg) := createCopyGo idGen (i + 1) rest
    match createCopyOne d (idGen i) with
    | none => (es, reg)
    | some (e, r) => (e :: es, r :: reg)

/-- Embedding of `createCopy` for the direct-array input format. -/
def createCopy (idGen : Nat → String) (domElements : List Descriptor) :
    List CopyElement × List (String × String) :=
  createCopyGo idGen 0 domElements

/-- Helper: for a clickable (button-rendered) element, the finished display
text is non-empty and trim-stable. -/
theorem finishDisplayText_btn_props (isAnchor : Bool) (t6 : Option String) :
    finishDisplayText true isAnchor t6 ≠ "" ∧
    jsTrim (finishDisplayText true isAnchor t6) = finishDisplayText true isAnchor t6 := by
  by_cases h : truthyS t6 = true
  · by_cases htr : jsTrim (jsStr t6) = ""
    · simp only [finishDisplayText, if_pos h, htr]
      refine ⟨by decide, by decide⟩
    · have hval : finishDisplayText true isAnchor t6 = jsTrim (jsStr t6) := by
        simp [finishDisplayText, if_pos h, htr]
      rw [hval]
      exact ⟨htr, jsTrim_idem _⟩
  · simp only [finishDisplayText, if_neg h]
    cases isAnchor
    · exact ⟨by decide, by decide⟩
    · exact ⟨by decide, by decide⟩

/-- Helper: for a clickable descriptor the computed display text is non-empty
and trim-stable. -/
theorem copyDisplayText_btn_props (d : Descriptor) (hbtn : shouldRenderAsButton d = true) :
    copyDisplayText d ≠ "" ∧ jsTrim (copyDisplayText d) = copyDisplayText d := by
  simp only [copyDisplayText, hbtn]
  exact finishDisplayText_btn_props _ _

/-- Definition following the SPEC's words (§4.6), for comparison with the
code: display text from the fallback chain text → value (for inputs) →
title/alt → label, trimmed, with the `[Button]`/`[Link]` placeholder when
everything is empty. -/
def specFallbackText (d : Descriptor) : String :=
  let tagName := jsToLower (jsStr d.tag)
  let chain := jsOr d.text (jsOr (if tagName == "input" then d.value else none)
    (jsOr d.title (jsOr d.alt d.label)))
  if truthyS chain ∧ jsTrim (jsStr chain) ≠ "" then jsTrim (jsStr chain)
  else if tagName == "a" then "[Link]" else "[Button]"

/-- The C8 counterexample descriptor: a submit input carrying both a non-empty
`text` and a non-empty `value`. -/
def submitWithTextAndValue : Descriptor :=
  ⟨some "input", some "submit", none, some "Go", none, some "Send", none, none,
    none, none, none, none, none, none, none, some "#form > input:nth-child(1)"⟩

/-- Claim C8 (counterexample to the claim as stated): for an input, a truthy
`value` OVERRIDES the descriptor's `text` instead of being a mere fallback
after it — the materialised button shows `"Send"` where the spec's chain
(text first) yields `"Go"`. -/
theorem createCopy_input_value_overrides_text :
    (createCopyOne submitWithTextAndValue "elem-a1b2c3").map
        (fun p => (p.1.tagName, p.1.textContent)) = some ("button", "Send") ∧
    specFallbackText submitWithTextAndValue = "Go" ∧
    ("Send" : String) ≠ "Go" := by
  refine ⟨by decide, by decide, by decide⟩

/-- Claim C8 (amended): every descriptor with a usable tag that is clickable
(original tag `a`, `button`, or `input` of type `button`/`submit`, or
`role="button"`) is materialised as a `button` element — never the original
tag — whose display text is trimmed and never empty; the text derivation is
`copyDisplayText`: `text`/`textContent` with `value` OVERRIDING for inputs,
then `value`/`title`/`alt` for role-button inputs, then
`innerText`/`innerHTML`/`title`/`alt`/`name` (HTML-stripped) for links, then
`label`, then the `[Button]`/`[Link]` placeholder. -/
theorem createCopy_clickable_materialises_button (d : Descriptor) (eid : String)
    (htag : truthyS (d.tag.map jsToLower) = true) (hbtn : shouldRenderAsButton d = true) :
    ∃ e r, createCopyOne d eid = some (e, r) ∧ e.tagName = "button" ∧
      e.textContent = copyDisplayText d ∧
      e.textContent ≠ "" ∧ jsTrim e.textContent = e.textContent := by
  have hcond : ¬ (truthyS (d.tag.map jsToLower) = false) := by simp [htag]
  unfold createCopyOne
  rw [if_neg hcond]
  refine ⟨_, _, rfl, ?_, rfl, (copyDisplayText_btn_props d hbtn).1,
    (copyDisplayText_btn_props d hbtn).2⟩
  simp [hbtn]

/-- Witness for C8 (amended): an anchor descriptor with padded text
materialises as a non-empty, trimmed button. -/
theorem createCopy_clickable_materialises_button_witness :
    ∃ e r, createCopyOne
        ⟨some "a", none, none, some "  Home  ", none, none, none, none, none,
          none, none, none, some "/home", none, none, some "body > a"⟩ "elem-1"
        = some (e, r) ∧ e.tagName = "button" ∧
      e.textContent = copyDisplayText
        ⟨some "a", none, none, some "  Home  ", none, none, none, none, none,
          none, none, none, some "/home", none, none, some "body > a"⟩ ∧
      e.textContent ≠ "" ∧ jsTrim e.textContent = e.textContent :=
  createCopy_clickable_materialises_button _ "elem-1" (by decide) (by decide)

/-!
## The selection stage (`selectRelevantDomElements`, llmPatch/index.js) — claim C5

`DomJson` is the serialized element tree built by `LLMIntegration.buildDomJson`
(whose browser-dependent geometry/visibility fields `classes`, `name`,
`value`, `aria`, `visible` and `bbox` are omitted here because no embedded
function reads them; serialisation always materialises every key, so
`hasOwnProperty` checks hold).  The try-block and the catch-block of
`selectRelevantDomElements` both call the pure `buildDomJson(originalDOM)` on
the same captured document, so the embedding takes the resulting tree
directly.  A mutual forest keeps every recursion structural.
-/

mutual
inductive DomJson where
  | node : String → Option String → Option String → Option String → Option String →
      String → Option String → String → Bool → Bool → DomForest → DomJson
inductive DomForest where
  | nil : DomForest
  | cons : DomJson → DomForest → DomForest
end

/-- Tag of a serialized node. -/
def DomJson.tag : DomJson → String
  | .node t _ _ _ _ _ _ _ _ _ _ => t

/-- The `role` field. -/
def DomJson.role : DomJson → Option String
  | .node _ _ r _ _ _ _ _ _ _ _ => r

/-- The content text field (always a string, truncated by the serializer). -/
def DomJson.text : DomJson → String
  | .node _ _ _ _ _ tx _ _ _ _ _ => tx

/-- The `href` field. -/
def DomJson.href : DomJson → Option String
  | .node _ _ _ _ _ _ h _ _ _ _ => h

/-- The children forest. -/
def DomJson.children : DomJson → DomForest
  | .node _ _ _ _ _ _ _ _ _ _ cs => cs

/-- The eight `keysToKeep` fields of a serialized node as a flat `Element`
record (`tag`, `id`, `label`, `text`, `selector`, `type`, `isInteractive`,
`isNavigationCandidate`; nullable fields serialise as JSON `null`). -/
def DomJson.toElement : DomJson → Element
  | .node t i _ ty lb tx _ sel ii inav _ =>
    ⟨.str t, (match i with | none => .null | some s => .str s),
      (match lb with | none => .null | some s => .str s), .str tx, .str sel,
      (match ty with | none => .null | some s => .str s), .bool ii, .bool inav⟩

/-- The important-keyword list of `isImportantText`. -/
def importantKeywords : List String :=
  ["search", "login", "sign in", "sign up", "register", "menu", "nav", "navigation",
   "submit", "buy", "add to cart", "cart", "checkout", "create", "save", "delete",
   "edit", "view", "more", "show", "hide", "filter", "sort", "browse", "shop",
   "home", "about", "contact", "help", "support", "account", "profile", "settings"]

/-- The short action words matched by the case-insensitive full-string regex
of `isImportantText`. -/
def actionWords : List String :=
  ["go", "click", "tap", "press", "enter", "ok", "yes", "no", "cancel", "close",
   "open", "start", "stop", "play", "pause"]

/-- The character class of the trivial-text regex: digits, whitespace and
the punctuation it lists. -/
def isTrivialChar (c : Char) : Bool :=
  c.isDigit ∨ jsIsSpace c ∨ c = '-' ∨ c = '_' ∨ c = '.' ∨ c = ',' ∨ c = '!' ∨ c = '?'

/-- Embedding of `isImportantText(node)`: style/script/meta/link excluded;
headings and labels always important; otherwise text of trimmed length > 2
that contains an important keyword, is a short action word, or is prose of 5
to 100 characters that is not purely digits/whitespace/punctuation. -/
def isImportantText (n : DomJson) : Bool :=
  if ["style", "script", "meta", "link"].contains n.tag then false
  else if ["h1", "h2", "h3", "h4", "h5", "h6"].contains n.tag then true
  else if n.tag == "label" then true
  else if n.text ≠ "" ∧ (jsTrim n.text).length > 2 then
    let text := jsTrim n.text
    let textLower := jsToLower text
    if importantKeywords.any (fun k => jsIncludes textLower k) then true
    else if text.length ≤ 20 ∧ actionWords.contains (jsToLower text) then true
    else if 5 ≤ text.length ∧ text.length ≤ 100
        ∧ ¬ (text.data ≠ [] ∧ text.data.all isTrivialChar) then true
    else false
  else false

/-- Embedding of `isFunctionalElement(node)` in source order (the null/no-tag
guard is discharged by the typing). -/
def isFunctionalElement (n : DomJson) : Bool :=
  if ["style", "script", "meta", "link", "title", "head", "html", "body"].contains n.tag
    then false
  else if n.tag == "input" || n.tag == "textarea" || n.tag == "select" then true
  else if n.tag == "button" then true
  else if n.tag == "a" ∧ truthyS n.href ∧ n.href ≠ some "#" then true
  else if n.tag == "form" then true
  else if (match n.role with
           | some r => ["button", "link", "search", "navigation", "combobox",
               "textbox"].contains r
           | none => false) then true
  else if isImportantText n then true
  else if n.tag == "nav" ∨ n.role == some "navigation" then true
  else if (n.tag == "span" ∨ n.tag == "div") ∧ n.role == some "button"
      ∧ n.text ≠ "" ∧ (jsTrim n.text).length > 0 then true
  else false

mutual
/-- Embedding of `extractFunctionalElements(node, acc)`: the functional
elements pushed while visiting `node`'s children — each functional child
(children emptied) followed by the recursive visit of that child. -/
def extractFunctional : DomJson → List DomJson
  | .node _ _ _ _ _ _ _ _ _ _ cs => extractFunctionalForest cs
/-- The forest traversal of `extractFunctionalElements`. -/
def extractFunctionalForest : DomForest → List DomJson
  | .nil => []
  | .cons c rest =>
    (if isFunctionalElement c then [c] else []) ++ extractFunctional c
      ++ extractFunctionalForest rest
end

mutual
/-- Embedding of `findBodyElement(domJson)`: depth-first search for the first
node with tag `body`. -/
def findBodyElement : DomJson → Option DomJson
  | n@(.node t _ _ _ _ _ _ _ _ _ cs) => if t == "body" then some n else findBodyForest cs
/-- The forest search of `findBodyElement`. -/
def findBodyForest : DomForest → Option DomJson
  | .nil => none
  | .cons c rest =>
    match findBodyElement c with
    | some b => some b
    | none => findBodyForest rest
end

/-- Embedding of `preTrimDom(domJson)`: the flat functional extraction from
the body, each element restricted to the eight `keysToKeep` fields (no body
element yields the empty array). -/
def preTrimDom (domJson : DomJson) : List Element :=
  match findBodyElement domJson with
  | none => []
  | some body => (extractFunctional body).map DomJson.toElement

/-- A hexadecimal digit (lower case), for JSON control-character escapes. -/
def hexDigit (n : Nat) : Char :=
  if n < 10 then Char.ofNat (48 + n) else Char.ofNat (87 + n)

/-- JSON string escaping of one character, as `JSON.stringify` performs it. -/
def escJsonChar (c : Char) : List Char :=
  if c = '"' then ['\\', '"']
  else if c = '\\' then ['\\', '\\']
  else if c = '\x08' then ['\\', 'b']
  else if c = '\t' then ['\\', 't']
  else if c = '\n' then ['\\', 'n']
  else if c = '\x0c' then ['\\', 'f']
  else if c = '\r' then ['\\', 'r']
  else if c.toNat < 32 then
    ['\\', 'u', '0', '0', hexDigit (c.toNat / 16), hexDigit (c.toNat % 16)]
  else [c]

/-- JSON escaping of a character list. -/
def escJsonList : List Char → List Char
  | [] => []
  | c :: rest => escJsonChar c ++ escJsonList rest

/-- JSON escaping of a string body. -/
def escJson (s : String) : String :=
  String.mk (escJsonList s.data)

/-- `JSON.stringify` of one field value (`none` for `undefined`: the field is
skipped). -/
def renderJsValJson : JsVal → Option String
  | .undef => none
  | .null => some "null"
  | .bool b => some (if b then "true" else "false")
  | .str s => some ("\"" ++ escJson s ++ "\"")

/-- The key/value pairs of an element record, in insertion (`keysToKeep`)
order. -/
def elementPairs (e : Element) : List (String × JsVal) :=
  [("tag", e.tag), ("id", e.id), ("label", e.label), ("text", e.text),
   ("selector", e.selector), ("type", e.type), ("isInteractive", e.isInteractive),
   ("isNavigationCandidate", e.isNavigationCandidate)]

/-- The rendered `"key":value` members of `JSON.stringify` for one element. -/
def jsonFields (e : Element) : List String :=
  (elementPairs e).filterMap
    (fun p => (renderJsValJson p.2).map (fun vs => "\"" ++ p.1 ++ "\":" ++ vs))

/-- Compact `JSON.stringify` of one element record. -/
def jsonStringifyElement (e : Element) : String :=
  "\x7b" ++ joinSep "," (jsonFields e) ++ "\x7d"

/-- Compact `JSON.stringify` of an element array. -/
def jsonStringifyElements (es : List Element) : String :=
  "[" ++ joinSep "," (es.map jsonStringifyElement) ++ "]"

/-- The rendered members for the two-space-indented
`JSON.stringify(elements, null, 2)` used when building prompts. -/
def jsonFieldsPretty (e : Element) : List String :=
  (elementPairs e).filterMap
    (fun p => (renderJsValJson p.2).map (fun vs => "\"" ++ p.1 ++ "\": " ++ vs))

/-- Two-space-indented `JSON.stringify` of one element record at array
depth. -/
def jsonStringifyElementPretty (e : Element) : String :=
  match jsonFieldsPretty e with
  | [] => "\x7b\x7d"
  | fs => "\x7b\n    " ++ joinSep ",\n    " fs ++ "\n  \x7d"

/-- Two-space-indented `JSON.stringify` of an element array. -/
def jsonStringifyElementsPretty (es : List Element) : String :=
  match es with
  | [] => "[]"
  | _ => "[\n  " ++ joinSep ",\n  " (es.map jsonStringifyElementPretty) ++ "\n]"

/-- The priority comparator passed to `elements.sort` before truncation
(interactive first, then navigation candidates, then important tags). -/
def selectionPriorityCompare (a b : Element) : Int :=
  if a.isInteractive.truthy ∧ ¬ b.isInteractive.truthy then -1
  else if ¬ a.isInteractive.truthy ∧ b.isInteractive.truthy then 1
  else if a.isNavigationCandidate.truthy ∧ ¬ b.isNavigationCandidate.truthy then -1
  else if ¬ a.isNavigationCandidate.truthy ∧ b.isNavigationCandidate.truthy then 1
  else
    let important := fun (e : Element) =>
      match e.tag with
      | .str t => ["input", "button", "a", "form", "select", "textarea"].contains t
      | _ => false
    if important a && ! important b then -1
    else if ! important a && important b then 1
    else 0

/-- The chunk-context note appended to the prompt when chunking. -/
def chunkContextNote (context : String) : String :=
  if context ≠ "" then
    "\n\nCHUNKING CONTEXT: Processing " ++ context ++
    " - Be HIGHLY SELECTIVE and only choose the most essential elements from this subset. Since this is part of a larger page, prioritize truly critical functionality over nice-to-have elements. Maintain consistency with overall intent and be more strict than usual."
  else ""

/-- The selection prompt template with the embedded DOM string, intent, URL
and context note. -/
def selectionPromptBody (domString intent url context : String) : String :=
  "Extract ONLY the essential functional elements for navigation and core website functionality.\n\nWEBSITE CONTEXT:\n- Current URL: \"" ++ url ++
  "\"\n- This helps determine the website's primary purpose and functionality\n\nINTENT ANALYSIS:\n- User intent: \"" ++ intent ++
  "\"\n- If the intent appears unrelated to this website's primary purpose (e.g., \"look at past Amazon orders\" on Google.com), IGNORE the specific intent\n- If the intent is relevant to this website, use it to guide selection\n- When in doubt, focus on general navigation and core functionality\n\nCORE FUNCTIONALITY TO EXTRACT:\n- Search inputs and search buttons (primary search functionality)\n- Main navigation menus and navigation links\n- Login/signup forms and authentication buttons\n- Primary call-to-action buttons\n- Essential form inputs for core website functions\n- Key content areas that represent the main purpose of the site\n- Navigation breadcrumbs and site structure elements\n\nREMOVE: ads, social widgets, decorative elements, footer text, cookie banners" ++
  chunkContextNote context ++
  "\n\nELEMENTS = " ++ domString ++
  "\n\nReturn a filtered array with only the essential elements users need for basic navigation and core website functionality. Each element should have: \x7btag, id, label, text, selector, isInteractive, isNavigationCandidate\x7d. Do not create any new elements or modify the existing elements! Only return elements that exist in the original array. No hallucinations or creative liberties."

/-- Embedding of `buildSelectionPrompt` as a fuel loop: estimate tokens as
`Math.ceil(length / 4)` of the two-space stringify; above 20000 tokens,
stable-sort by priority and keep the first 60% (`Math.floor(length * 0.6)`,
written as exact integer arithmetic — the double-rounding corner of the
multiplication affects no embedded behaviour), then retry.  Each retry
strictly shrinks a non-empty list, so `length + 1` fuel is never exhausted. -/
def buildSelectionPromptGo (intent url context : String) :
    Nat → List Element → String
  | 0, elements => selectionPromptBody (jsonStringifyElementsPretty elements) intent url context
  | fuel + 1, elements =>
    let domString := jsonStringifyElementsPretty elements
    let estimatedTokens := (domString.length + 3) / 4
    if estimatedTokens > 20000 then
      let prioritizedElements := elements.mergeSort
        (fun a b => selectionPriorityCompare a b ≤ 0)
      let truncatedElements := prioritizedElements.take (3 * elements.length / 5)
      buildSelectionPromptGo intent url context fuel truncatedElements
    else selectionPromptBody domString intent url context

/-- Embedding of `buildSelectionPrompt(elements, intent, url, context)`. -/
def buildSelectionPrompt (elements : List Element) (intent url context : String) : String :=
  buildSelectionPromptGo intent url context (elements.length + 1) elements

/-- One step of the chunking loop of `chunkElementsArray`: state is
(closed chunks, current chunk, current size). -/
def chunkStep (state : List (List Element) × List Element × Nat) (element : Element) :
    List (List Element) × List Element × Nat :=
  let elementSize := (jsonStringifyElement element).length
  if state.2.2 + elementSize > 25000 ∧ state.2.1.length > 0 then
    (state.1 ++ [state.2.1], [element], elementSize)
  else (state.1, state.2.1 ++ [element], state.2.2 + elementSize)

/-- The `slice` loop that re-cuts the element list into fixed-size chunks
(fuel-bounded by the list length; the JavaScript loop would not terminate for
a zero chunk size, which is unreachable at both call sites). -/
def splitEveryGo : Nat → Nat → List Element → List (List Element)
  | _, _, [] => []
  | 0, _, l => [l]
  | fuel + 1, k, l => l.take k :: splitEveryGo fuel k (l.drop k)

/-- Cutting a list into consecutive chunks of `k` elements. -/
def splitEvery (k : Nat) (l : List Element) : List (List Element) :=
  splitEveryGo l.length k l

/-- Embedding of `chunkElementsArray(elements)`: greedy size-bounded chunking
at 25000 characters, then the 2–3-chunk rebalancing: one chunk from more than
50 elements is split into 2 (or 3 above 150) even slices, and more than 3
chunks are re-cut into 3 (`Math.ceil` written as exact integer ceiling
division). -/
def chunkElementsArray (elements : List Element) : List (List Element) :=
  let st := elements.foldl chunkStep ([], [], 0)
  let chunks := if st.2.1.length > 0 then st.1 ++ [st.2.1] else st.1
  if chunks.length == 1 ∧ elements.length > 50 then
    let targetChunks := if elements.length > 150 then 3 else 2
    let chunkSize := (elements.length + targetChunks - 1) / targetChunks
    splitEvery chunkSize elements
  else if chunks.length > 3 then
    let elementsPerChunk := (elements.length + 2) / 3
    splitEvery elementsPerChunk elements
  else chunks

/-- The shape of a successfully parsed selection response: the three accepted
JSON forms, or anything else. -/
inductive SelectionShape where
  | arr : List Element → SelectionShape
  | objElements : List Element → SelectionShape
  | objFilteredTree : List Element → SelectionShape
  | other : SelectionShape

/-- The external environment of the selection stage.  `apiKey` is the result
of `getApiKey()` (`.error` models its throw when no key is configured).
`respond prompt` collapses `makeApiRequest` + `response.json()` +
`JSON.parse(choices[0].message.content)` for one prompt: `.ok` carries the
parsed shape; `.error` models every thrown failure on that path — a fetch
rejection after the retries, the `TypeError` from `json()` on the `undefined`
of an exhausted 429 loop, a missing `choices` structure, or unparseable
message content (in the chunked path the last two produce the same fallback
record as the `catch`, so one error case is faithful for both paths). -/
structure SelectionEnv where
  apiKey : Except String String
  respond : String → Except String SelectionShape

/-- The format tolerance applied to a parsed response: a bare array,
`elements`, or `filtered_dom_tree` — anything else yields the empty array. -/
def parseShape : SelectionShape → List Element
  | .arr l => l
  | .objElements l => l
  | .objFilteredTree l => l
  | .other => []

/-- Embedding of `selectRelevantElementsSingle`: one request, the parsed
shape normalised; any thrown failure propagates to the caller. -/
def selectRelevantElementsSingle (env : SelectionEnv) (preTrimmedElements : List Element)
    (intent url : String) : Except String (List Element) :=
  match env.respond (buildSelectionPrompt preTrimmedElements intent url "") with
  | .error e => .error e
  | .ok shape => .ok (parseShape shape)

/-- Embedding of `selectElementsChunk`: one request for the chunk; every
failure is caught locally and falls back to the UNFILTERED original chunk
with `success: false`. -/
def selectElementsChunk (env : SelectionEnv) (chunk : List Element)
    (intent url : String) (index total : Nat) : ChunkResult :=
  match env.respond (buildSelectionPrompt chunk intent url
      ("chunk " ++ toString (index + 1) ++ "/" ++ toString total)) with
  | .error _ => ⟨chunk, false, index⟩
  | .ok shape =>
    match shape with
    | .other => ⟨[], true, index⟩
    | s => ⟨parseShape s, true, index⟩

/-- `Array.prototype.map` with the element index (the chunk fan-out). -/
def mapWithIndex (f : Nat → List Element → ChunkResult) :
    Nat → List (List Element) → List ChunkResult
  | _, [] => []
  | i, c :: rest => f i c :: mapWithIndex f (i + 1) rest

/-- Embedding of `selectRelevantElementsChunked`: chunk, fan out one request
per chunk (completion order is irrelevant: the join is a deterministic merge),
and merge. -/
def selectRelevantElementsChunked (env : SelectionEnv) (preTrimmedElements : List Element)
    (intent url : String) : List Element :=
  let chunks := chunkElementsArray preTrimmedElements
  mergeFilteredElementChunks
    (mapWithIndex (fun i c => selectElementsChunk env c intent url i chunks.length) 0 chunks)

/-- Embedding of `extractSelectorsFromArray(elements)` on an array input. -/
def extractSelectorsFromArray (elements : List Element) : List JsVal :=
  (elements.filter (fun e => e.selector.truthy)).map (fun e => e.selector)

/-- The selection result record. -/
structure SelectionResult where
  filteredDomJson : List Element
  selectedSelectors : List JsVal
deriving DecidableEq, Repr

/-- The try-block of `selectRelevantDomElements`: get the API key, pre-trim,
then single or chunked selection depending on the 60000-character threshold
of the compact stringify. -/
def selectRelevantDomElementsTry (env : SelectionEnv) (fullDomJson : DomJson)
    (intent url : String) : Except String SelectionResult :=
  match env.apiKey with
  | .error e => .error e
  | .ok _ =>
    let preTrimmedElements := preTrimDom fullDomJson
    let elementsSize := (jsonStringifyElements preTrimmedElements).length
    let filteredRes : Except String (List Element) :=
      if elementsSize > 60000 then
        .ok (selectRelevantElementsChunked env preTrimmedElements intent url)
      else selectRelevantElementsSingle env preTrimmedElements intent url
    match filteredRes with
    | .error e => .error e
    | .ok filteredElements =>
      .ok ⟨filteredElements, extractSelectorsFromArray filteredElements⟩

/-- Embedding of `selectRelevantDomElements(originalDOM, intent)` (the page
URL passed explicitly; the in-memory `selectionCache` writes are elided): the
try-block, with the catch falling back to the pre-trim of the same serialized
tree.  The return type itself witnesses that no error propagates. -/
def selectRelevantDomElements (env : SelectionEnv) (fullDomJson : DomJson)
    (intent url : String) : SelectionResult :=
  match selectRelevantDomElementsTry env fullDomJson intent url with
  | .ok r => r
  | .error _ =>
    let preTrimmedElements := preTrimDom fullDomJson
    ⟨preTrimmedElements, extractSelectorsFromArray preTrimmedElements⟩

/-- Helper: a member's length bounds the joined length from below. -/
theorem joinSep_length_ge (sep : String) (l : List String) (x : String) (hx : x ∈ l) :
    x.length ≤ (joinSep sep l).length := by
  induction l with
  | nil => cases hx
  | cons a rest ih =>
    cases rest with
    | nil =>
      rw [List.mem_singleton] at hx
      subst hx
      exact Nat.le_refl _
    | cons b rs =>
      rcases List.mem_cons.mp hx with rfl | hx'
      · simp only [joinSep, String.length_append]
        omega
      · have := ih hx'
        simp only [joinSep, String.length_append]
        omega

/-- Helper: the compact stringify of an element list is at least as long as
the JSON escape of any member's string-valued `text` field. -/
theorem jsonStringifyElements_length_ge_text (e : Element) (es : List Element) (s : String)
    (he : e ∈ es) (ht : e.text = .str s) :
    (escJson s).length ≤ (jsonStringifyElements es).length := by
  have hmemFields : ("\"" ++ "text" ++ "\":" ++ ("\"" ++ escJson s ++ "\"")) ∈ jsonFields e := by
    apply List.mem_filterMap.mpr
    refine ⟨("text", e.text), by simp [elementPairs], ?_⟩
    rw [ht]
    simp [renderJsValJson]
  have h1 : ("\"" ++ "text" ++ "\":" ++ ("\"" ++ escJson s ++ "\"")).length
      ≤ (joinSep "," (jsonFields e)).length := joinSep_length_ge _ _ _ hmemFields
  have h2 : (joinSep "," (jsonFields e)).length ≤ (jsonStringifyElement e).length := by
    simp only [jsonStringifyElement, String.length_append]
    omega
  have hmemMap : jsonStringifyElement e ∈ es.map jsonStringifyElement :=
    List.mem_map_of_mem _ he
  have h3 : (jsonStringifyElement e).length
      ≤ (joinSep "," (es.map jsonStringifyElement)).length :=
    joinSep_length_ge _ _ _ hmemMap
  have h4 : (joinSep "," (es.map jsonStringifyElement)).length
      ≤ (jsonStringifyElements es).length := by
    simp only [jsonStringifyElements, String.length_append]
    omega
  have h0 : (escJson s).length ≤ ("\"" ++ "text" ++ "\":" ++ ("\"" ++ escJson s ++ "\"")).length := by
    simp only [String.length_append]
    omega
  omega

/-- Helper: JSON escaping fixes a run of `a` characters. -/
theorem escJson_replicate_a (n : Nat) :
    escJson (String.mk (List.replicate n 'a')) = String.mk (List.replicate n 'a') := by
  suffices h : escJsonList (List.replicate n 'a') = List.replicate n 'a' by
    simp [escJson, h]
  induction n with
  | zero => rfl
  | succ m ih =>
    simp only [List.replicate_succ, escJsonList, ih]
    rfl

/-- Helper: lower-casing fixes a run of `a` characters. -/
theorem jsToLower_replicate_a (n : Nat) :
    jsToLower (String.mk (List.replicate n 'a')) = String.mk (List.replicate n 'a') := by
  simp only [jsToLower, List.map_replicate]
  rw [show jsLowerChar 'a' = 'a' from by decide]

/-- Helper: a pattern containing a character other than `a` is not a
substring of a run of `a` characters. -/
theorem jsIncludes_replicate_a_false (n : Nat) (pat : String) (c : Char)
    (hc : c ∈ pat.data) (hne : c ≠ 'a') :
    jsIncludes (String.mk (List.replicate n 'a')) pat = false := by
  simp only [jsIncludes, decide_eq_false_iff_not]
  intro hinf
  exact hne (List.eq_of_mem_replicate (hinf.subset hc))

/-- A 70000-character text run, driving the pre-trimmed element set over the
60000-character chunking threshold. -/
def hugeText : String := String.mk (List.replicate 70000 'a')

/-- A serialized `h1` heading carrying the huge text (functional for the
pre-trim because headings are always important, but neither interactive nor
navigation-candidate nor high-priority). -/
def hugeHeading : DomJson :=
  .node "h1" none none none none hugeText none "body > h1" false false .nil

/-- The captured document for the C5 counterexample. -/
def hugeDom : DomJson :=
  .node "html" none none none none "" none "html" false false
    (.cons (.node "body" none none none none "" none "body" false false
      (.cons hugeHeading .nil)) .nil)

/-- An environment whose API key resolves but whose every request fails
(e.g. three 429 responses on each attempt). -/
def chunkFailEnv : SelectionEnv :=
  ⟨.ok "sk-test", fun _ => .error "rate limited until retries exhausted"⟩


/-- Helper: the pre-trim of the huge document is exactly the heading. -/
theorem preTrimDom_hugeDom : preTrimDom hugeDom = [DomJson.toElement hugeHeading] := rfl

/-- Helper: no high-priority keyword occurs in the huge text. -/
theorem hugeText_any_keyword_false :
    (["search", "login", "menu", "buy", "cart", "submit"].any
      (fun k => jsIncludes (jsToLower hugeText) k)) = false := by
  have htl : jsToLower hugeText = String.mk (List.replicate 70000 'a') := by
    unfold hugeText
    exact jsToLower_replicate_a 70000
  rw [List.any_eq_false]
  intro pat hpat
  simp only [List.mem_cons, List.not_mem_nil, or_false] at hpat
  rw [htl]
  simp only [Bool.not_eq_true]
  rcases hpat with rfl | rfl | rfl | rfl | rfl | rfl
  · exact jsIncludes_replicate_a_false 70000 _ 's' (by decide) (by decide)
  · exact jsIncludes_replicate_a_false 70000 _ 'l' (by decide) (by decide)
  · exact jsIncludes_replicate_a_false 70000 _ 'm' (by decide) (by decide)
  · exact jsIncludes_replicate_a_false 70000 _ 'b' (by decide) (by decide)
  · exact jsIncludes_replicate_a_false 70000 _ 'c' (by decide) (by decide)
  · exact jsIncludes_replicate_a_false 70000 _ 's' (by decide) (by decide)

/-- Helper: the huge heading is not a high-priority element. -/
theorem hugeHeading_not_high_priority :
    isHighPriorityElement (DomJson.toElement hugeHeading) = false := by
  show (isHighPriorityTag (.str "h1") || hasHighPriorityKeyword (.str hugeText)) = false
  have hk : hasHighPriorityKeyword (.str hugeText) = false := by
    show (hugeText ≠ "" &&
      (["search", "login", "menu", "buy", "cart", "submit"].any
        (fun k => jsIncludes (jsToLower hugeText) k))) = false
    rw [hugeText_any_keyword_false]
    exact Bool.and_false _
  rw [hk]
  decide

/-- Helper: the local filter applied to a failed chunk drops the heading. -/
theorem local_filter_drops_hugeHeading :
    ((DomJson.toElement hugeHeading).isInteractive.truthy
      || (DomJson.toElement hugeHeading).isNavigationCandidate.truthy
      || isHighPriorityElement (DomJson.toElement hugeHeading)) = false := by
  rw [hugeHeading_not_high_priority]
  rfl

/-- Helper: the failed-chunk filter keeps nothing from the huge chunk. -/
theorem filter_drops_huge_chunk :
    List.filter (fun el => el.isInteractive.truthy || el.isNavigationCandidate.truthy
      || isHighPriorityElement el) [DomJson.toElement hugeHeading] = [] := by
  rw [List.filter_cons_of_neg]
  · rfl
  · intro hc
    have hc' : ((DomJson.toElement hugeHeading).isInteractive.truthy
        || (DomJson.toElement hugeHeading).isNavigationCandidate.truthy
        || isHighPriorityElement (DomJson.toElement hugeHeading)) = true := hc
    rw [local_filter_drops_hugeHeading] at hc'
    exact Bool.false_ne_true hc'

/-- Helper: merging the single failed chunk locally filters the heading away. -/
theorem merge_failed_huge_chunk :
    mergeFilteredElementChunks [⟨[DomJson.toElement hugeHeading], false, 0⟩] = [] := by
  unfold mergeFilteredElementChunks
  rw [List.foldl_cons, List.foldl_nil]
  have hsucc : (⟨[DomJson.toElement hugeHeading], false, 0⟩ : ChunkResult).success = false := rfl
  rw [hsucc]
  rw [if_neg (by decide)]
  rw [List.nil_append, filter_drops_huge_chunk]
  rfl

/-- Helper: a single element always chunks into a single chunk. -/
theorem chunkElementsArray_singleton (e : Element) : chunkElementsArray [e] = [[e]] := by
  simp only [chunkElementsArray, List.foldl_cons, List.foldl_nil, chunkStep]
  rw [if_neg (by simp)]
  simp

/-- Helper: the compact stringify of the pre-trimmed huge element set exceeds
the 60000-character chunking threshold. -/
theorem hugeElements_size_over_threshold :
    60000 < (jsonStringifyElements [DomJson.toElement hugeHeading]).length := by
  have h70 : (escJson hugeText).length = 70000 := by
    unfold hugeText
    rw [escJson_replicate_a]
    show (List.replicate 70000 'a').length = 70000
    exact List.length_replicate 70000 'a'
  have hge := jsonStringifyElements_length_ge_text (DomJson.toElement hugeHeading)
    [DomJson.toElement hugeHeading] hugeText (by simp)
    (by show JsVal.str hugeText = JsVal.str hugeText; rfl)
  omega

/-- Helper: the failing environment turns the huge chunk into the failure
fallback record. -/
theorem huge_chunk_request_fails :
    selectElementsChunk chunkFailEnv [DomJson.toElement hugeHeading]
      "find anything" "https://example.test/" 0 1
      = ⟨[DomJson.toElement hugeHeading], false, 0⟩ := by
  have hresp : ∀ p, chunkFailEnv.respond p = .error "rate limited until retries exhausted" :=
    fun _ => rfl
  unfold selectElementsChunk
  rw [hresp]

/-- Helper: the chunked path with the failing environment loses the heading. -/
theorem chunked_huge_result_empty :
    selectRelevantElementsChunked chunkFailEnv [DomJson.toElement hugeHeading]
      "find anything" "https://example.test/" = [] := by
  simp only [selectRelevantElementsChunked]
  rw [chunkElementsArray_singleton]
  rw [show mapWithIndex (fun i c => selectElementsChunk chunkFailEnv c "find anything"
      "https://example.test/" i [[DomJson.toElement hugeHeading]].length) 0
      [[DomJson.toElement hugeHeading]]
    = [selectElementsChunk chunkFailEnv [DomJson.toElement hugeHeading] "find anything"
        "https://example.test/" 0 1] from rfl]
  rw [huge_chunk_request_fails]
  exact merge_failed_huge_chunk

/-- Helper: symbolic shape of the try-block when the key is available, the
stringify exceeds the threshold, and the chunked path returns `[]`. -/
theorem selectTry_chunked_shape (env : SelectionEnv) (dom : DomJson) (intent url : String)
    (els : List Element) (k : String)
    (hkey : env.apiKey = .ok k)
    (hpre : preTrimDom dom = els)
    (hsize : 60000 < (jsonStringifyElements els).length)
    (hchunk : selectRelevantElementsChunked env els intent url = []) :
    selectRelevantDomElementsTry env dom intent url = .ok ⟨[], []⟩ := by
  unfold selectRelevantDomElementsTry
  rw [hkey]
  simp only [hpre]
  rw [if_pos hsize, hchunk]
  rfl

/-- Helper: symbolic shape of the catch wrapper when the try-block succeeds. -/
theorem select_main_of_try (env : SelectionEnv) (dom : DomJson) (intent url : String)
    (r : SelectionResult)
    (h : selectRelevantDomElementsTry env dom intent url = .ok r) :
    selectRelevantDomElements env dom intent url = r := by
  unfold selectRelevantDomElements
  rw [h]

/-- Helper: the try-block on the huge fixture succeeds with an empty result. -/
theorem try_huge_returns_empty :
    selectRelevantDomElementsTry chunkFailEnv hugeDom "find anything"
      "https://example.test/" = .ok ⟨[], []⟩ :=
  selectTry_chunked_shape chunkFailEnv hugeDom "find anything" "https://example.test/"
    [DomJson.toElement hugeHeading] "sk-test" rfl preTrimDom_hugeDom
    hugeElements_size_over_threshold chunked_huge_result_empty

/-- Helper: on the huge fixture with the failing environment the selection
result is empty. -/
theorem selectRelevantDomElements_huge_empty :
    (selectRelevantDomElements chunkFailEnv hugeDom "find anything"
      "https://example.test/").filteredDomJson = [] := by
  rw [select_main_of_try chunkFailEnv hugeDom "find anything" "https://example.test/"
    ⟨[], []⟩ try_huge_returns_empty]

/-- Claim C5 (counterexample to the claim as stated): with the API key
available but every request failing (retries exhausted), a pre-trimmed
element set over the chunking threshold does NOT fall back to the pre-trim
extraction — the per-chunk failure fallback filters each failed chunk
locally (interactive / navigation / high-priority only), so the heading kept
by the pre-trim is dropped and `filteredDomJson` is empty while the pre-trim
extraction is not. -/
theorem selectRelevantDomElements_chunked_failure_differs :
    (selectRelevantDomElements chunkFailEnv hugeDom "find anything"
      "https://example.test/").filteredDomJson = [] ∧
    preTrimDom hugeDom = [DomJson.toElement hugeHeading] ∧
    (selectRelevantDomElements chunkFailEnv hugeDom "find anything"
      "https://example.test/").filteredDomJson ≠ preTrimDom hugeDom := by
  refine ⟨selectRelevantDomElements_huge_empty, preTrimDom_hugeDom, ?_⟩
  rw [selectRelevantDomElements_huge_empty, preTrimDom_hugeDom]
  intro hcontra
  cases hcontra

/-- Claim C5 (amended): `selectRelevantDomElements` is total (never
propagates an error to its caller) and, when the API key is unavailable or
the single-request path (element sets within the 60000-character threshold)
fails, returns exactly the deterministic pre-trim extraction over the same
serialized element set, with its selectors; per-chunk failures on the
chunked path instead fall back to a locally filtered version of each failed
chunk. -/
theorem selectRelevantDomElements_failure_falls_back_to_pretrim
    (env : SelectionEnv) (dom : DomJson) (intent url : String)
    (h : (∃ e, env.apiKey = .error e) ∨
      ((jsonStringifyElements (preTrimDom dom)).length ≤ 60000 ∧
        ∃ e, env.respond (buildSelectionPrompt (preTrimDom dom) intent url "") = .error e)) :
    selectRelevantDomElements env dom intent url =
      ⟨preTrimDom dom, extractSelectorsFromArray (preTrimDom dom)⟩ := by
  rcases h with ⟨e, he⟩ | ⟨hsize, e, he⟩
  · simp [selectRelevantDomElements, selectRelevantDomElementsTry, he]
  · cases hk : env.apiKey with
    | error e2 => simp [selectRelevantDomElements, selectRelevantDomElementsTry, hk]
    | ok k =>
      have hniff : ¬ ((jsonStringifyElements (preTrimDom dom)).length > 60000) := by omega
      simp only [selectRelevantDomElements, selectRelevantDomElementsTry, hk, if_neg hniff,
        selectRelevantElementsSingle, he]

/-- The end-to-end scenario document: a body holding a text input `#q` and a
search button `#go`. -/
def searchDom : DomJson :=
  .node "html" none none none none "" none "html" false false
    (.cons (.node "head" none none none none "" none "head" false false .nil)
      (.cons (.node "body" none none none none "" none "body" false false
        (.cons (.node "input" (some "q") none (some "text") none "" none "#q" true false .nil)
          (.cons (.node "button" (some "go") none none none "Search" none "#go" true false .nil)
            .nil))) .nil))

/-- An environment with no API key configured (`getApiKey` throws). -/
def noKeyEnv : SelectionEnv :=
  ⟨.error "OpenAI API key not found", fun _ => .ok .other⟩

/-- Witness for C5 (amended): with no API key, the selection stage returns
the pre-trim fallback, which retains both the input and the button. -/
theorem selectRelevantDomElements_fallback_witness :
    selectRelevantDomElements noKeyEnv searchDom "search for shoes" "https://example.test/"
      = ⟨preTrimDom searchDom, extractSelectorsFromArray (preTrimDom searchDom)⟩ ∧
    preTrimDom searchDom =
      [⟨.str "input", .str "q", .null, .str "", .str "#q", .str "text", .bool true, .bool false⟩,
       ⟨.str "button", .str "go", .null, .str "Search", .str "#go", .null, .bool true, .bool false⟩] :=
  ⟨selectRelevantDomElements_failure_falls_back_to_pretrim noKeyEnv searchDom
      "search for shoes" "https://example.test/" (Or.inl ⟨_, rfl⟩),
    by decide⟩
